import Mathlib

/-! Matrix kernels of `matrices.cpp`.

A shallow embedding of the 2x2, 3x3 and 4x4 matrix routines of `matrices.cpp`.

* `float` is modelled by an arbitrary linearly ordered field `K` (exact arithmetic); every
  definition is computable and can be evaluated over `ℚ`.
* `int` is modelled by `Int`.  Signed overflow is undefined behaviour in C++ and is not modelled.
* A `float*` buffer is a function `Int → K`; a store `p[i] = v` is `Function.update p i v`.
  Input and output buffers are separate values, i.e. they are assumed not to alias.
* A `for (int i = 0; i < n; ++i)` loop is `forLoop n body`, which runs `body 0`, `body 1`, ...
  in this order and does nothing when `n ≤ 0`.
* The header `matrices.h` is not part of the sources; what the code uses from it (the matrix and
  vector types, their constructors and accessors) is modelled from the specification.
* `cosf`, `sinf`, `sqrtf` and the macro `DEG2RAD` are parameters (`MathEnv`); theorems that need
  a property of them (`cos² + sin² = 1`, an exact square root) state it as a hypothesis.
-/

/-- Iterates `body 0`, ..., `body (n - 1)` in this order, threading the state. -/
def loopN {σ : Type} : Nat → (Int → σ → σ) → σ → σ
  | 0, _, s => s
  | n + 1, body, s => body (n : Int) (loopN n body s)

/-- The loop `for (int i = 0; i < n; ++i) body`. -/
def forLoop {σ : Type} (n : Int) (body : Int → σ → σ) (s : σ) : σ :=
  loopN n.toNat body s

section Model

variable {K : Type} [LinearOrderedField K]

/-- The constant `FLT_EPSILON` of `<cfloat>`, which is `2⁻²³` for IEEE single precision. -/
def FLT_EPSILON : K := 1 / 8388608

/-- The macro `CMP(x, y)`: `fabsf(x - y) <= FLT_EPSILON * fmaxf(1, fmaxf(fabsf(x), fabsf(y)))`. -/
def CMP (x y : K) : Bool :=
  decide (|x - y| ≤ FLT_EPSILON * max 1 (max |x| |y|))

/-- Modelled from the spec: the type `vec3` (declared in a header that is not under `src/`),
three floats `x`, `y`, `z`. -/
structure vec3 (K : Type) where
  x : K
  y : K
  z : K
deriving DecidableEq, Repr

/-- Modelled from the spec: the type `mat2` of `matrices.h` (not under `src/`), 4 floats
with the named accessors `_rc` (row `r`, column `c`, 1-indexed). -/
structure mat2 (K : Type) where
  _11 : K
  _12 : K
  _21 : K
  _22 : K
deriving DecidableEq, Repr

/-- Modelled from the spec: the view `asArray` of a `mat2` as a flat row-major buffer of
length 4 (declared in `matrices.h`); a read outside the buffer is given the value `0`. -/
def mat2.asArray (m : mat2 K) : Int → K := fun i =>
  if i = 0 then m._11 else if i = 1 then m._12 else if i = 2 then m._21 else
  if i = 3 then m._22 else 0

/-- Modelled from the spec: the `mat2` whose flat buffer `asArray` holds the first 4
entries of `b` (`asArray` and the named fields share storage in `matrices.h`). -/
def mat2.ofArray (b : Int → K) : mat2 K :=
  ⟨b 0, b 1, b 2, b 3⟩

/-- Modelled from the spec: the default constructor `mat2()` of `matrices.h`, which the spec
describes as the default-constructed (zero-filled) matrix. -/
def mat2.default : mat2 K :=
  ⟨0, 0, 0, 0⟩

/-- Modelled from the spec: the flat index that `operator[]` of `mat2` (in `matrices.h`) gives
to `m[i][j]`, row-major: `2 * i + j`. -/
def mat2.index (i j : Int) : Int := 2 * i + j

/-- Modelled from the spec: the type `mat3` of `matrices.h` (not under `src/`), 9 floats
with the named accessors `_rc` (row `r`, column `c`, 1-indexed). -/
structure mat3 (K : Type) where
  _11 : K
  _12 : K
  _13 : K
  _21 : K
  _22 : K
  _23 : K
  _31 : K
  _32 : K
  _33 : K
deriving DecidableEq, Repr

/-- Modelled from the spec: the view `asArray` of a `mat3` as a flat row-major buffer of
length 9 (declared in `matrices.h`); a read outside the buffer is given the value `0`. -/
def mat3.asArray (m : mat3 K) : Int → K := fun i =>
  if i = 0 then m._11 else if i = 1 then m._12 else if i = 2 then m._13 else
  if i = 3 then m._21 else if i = 4 then m._22 else if i = 5 then m._23 else
  if i = 6 then m._31 else if i = 7 then m._32 else if i = 8 then m._33 else 0

/-- Modelled from the spec: the `mat3` whose flat buffer `asArray` holds the first 9
entries of `b` (`asArray` and the named fields share storage in `matrices.h`). -/
def mat3.ofArray (b : Int → K) : mat3 K :=
  ⟨b 0, b 1, b 2, b 3, b 4, b 5, b 6, b 7, b 8⟩

/-- Modelled from the spec: the default constructor `mat3()` of `matrices.h`, which the spec
describes as the default-constructed (zero-filled) matrix. -/
def mat3.default : mat3 K :=
  ⟨0, 0, 0, 0, 0, 0, 0, 0, 0⟩

/-- Modelled from the spec: the flat index that `operator[]` of `mat3` (in `matrices.h`) gives
to `m[i][j]`, row-major: `3 * i + j`. -/
def mat3.index (i j : Int) : Int := 3 * i + j

/-- Modelled from the spec: the type `mat4` of `matrices.h` (not under `src/`), 16 floats
with the named accessors `_rc` (row `r`, column `c`, 1-indexed). -/
structure mat4 (K : Type) where
  _11 : K
  _12 : K
  _13 : K
  _14 : K
  _21 : K
  _22 : K
  _23 : K
  _24 : K
  _31 : K
  _32 : K
  _33 : K
  _34 : K
  _41 : K
  _42 : K
  _43 : K
  _44 : K
deriving DecidableEq, Repr

/-- Modelled from the spec: the view `asArray` of a `mat4` as a flat row-major buffer of
length 16 (declared in `matrices.h`); a read outside the buffer is given the value `0`. -/
def mat4.asArray (m : mat4 K) : Int → K := fun i =>
  if i = 0 then m._11 else if i = 1 then m._12 else if i = 2 then m._13 else
  if i = 3 then m._14 else if i = 4 then m._21 else if i = 5 then m._22 else
  if i = 6 then m._23 else if i = 7 then m._24 else if i = 8 then m._31 else
  if i = 9 then m._32 else if i = 10 then m._33 else if i = 11 then m._34 else
  if i = 12 then m._41 else if i = 13 then m._42 else if i = 14 then m._43 else
  if i = 15 then m._44 else 0

/-- Modelled from the spec: the `mat4` whose flat buffer `asArray` holds the first 16
entries of `b` (`asArray` and the named fields share storage in `matrices.h`). -/
def mat4.ofArray (b : Int → K) : mat4 K :=
  ⟨b 0, b 1, b 2, b 3, b 4, b 5, b 6, b 7, b 8, b 9, b 10, b 11, b 12, b 13, b 14, b 15⟩

/-- Modelled from the spec: the default constructor `mat4()` of `matrices.h`, which the spec
describes as the default-constructed (zero-filled) matrix. -/
def mat4.default : mat4 K :=
  ⟨0, 0, 0, 0, 0, 0, 0, 0, 0, 0, 0, 0, 0, 0, 0, 0⟩

/-- Modelled from the spec: the flat index that `operator[]` of `mat4` (in `matrices.h`) gives
to `m[i][j]`, row-major: `4 * i + j`. -/
def mat4.index (i j : Int) : Int := 4 * i + j

/-! ## Generic kernels on flat buffers -/

/-- The generic `Transpose(srcMat, dstMat, srcRows, srcCols)`; the result is the final
`dstMat`.  `/` and `%` on `int` truncate towards zero. -/
def Flat.Transpose (srcMat dstMat : Int → K) (srcRows srcCols : Int) : Int → K :=
  forLoop (srcRows * srcCols) (fun i dstMat =>
    let row := Int.tdiv i srcRows
    let col := Int.tmod i srcRows
    Function.update dstMat i (srcMat (srcCols * col + row))) dstMat

/-- The generic `Multiply(out, matA, aRows, aCols, matB, bRows, bCols)`; the result is the
returned flag together with the final `out`. -/
def Flat.Multiply (out matA : Int → K) (aRows aCols : Int) (matB : Int → K) (bRows bCols : Int) :
    Bool × (Int → K) :=
  if aCols ≠ bRows then (false, out)
  else
    (true, forLoop aRows (fun i out =>
      forLoop bCols (fun j out =>
        let out := Function.update out (bCols * i + j) 0
        forLoop bRows (fun k out =>
          let a := aCols * i + k
          let b := bCols * k + j
          Function.update out (bCols * i + j) (out (bCols * i + j) + matA a * matB b)) out)
        out) out)

/-- The generic `Cofactor(out, minor, rows, cols)`; the result is the final `out`.
`powf(-1.0f, i + j)` is `(-1) ^ (i + j)`. -/
def Flat.Cofactor (out minor : Int → K) (rows cols : Int) : Int → K :=
  forLoop rows (fun i out =>
    forLoop cols (fun j out =>
      let t := cols * j + i
      let s := cols * j + i
      let sign : K := (-1) ^ (i + j)
      Function.update out t (minor s * sign)) out) out

/-! ## Transpose -/

/-- The overload `Transpose(const mat2&)`. -/
def mat2.Transpose (matrix : mat2 K) : mat2 K :=
  let result : mat2 K := mat2.default
  mat2.ofArray (Flat.Transpose matrix.asArray result.asArray 2 2)

/-- The overload `Transpose(const mat3&)`. -/
def mat3.Transpose (matrix : mat3 K) : mat3 K :=
  let result : mat3 K := mat3.default
  mat3.ofArray (Flat.Transpose matrix.asArray result.asArray 3 3)

/-- The overload `Transpose(const mat4&)`. -/
def mat4.Transpose (matrix : mat4 K) : mat4 K :=
  let result : mat4 K := mat4.default
  mat4.ofArray (Flat.Transpose matrix.asArray result.asArray 4 4)

/-! ## Scalar and matrix products -/

/-- The overload `operator*(const mat2&, float)`. -/
def mat2.smul (matrix : mat2 K) (scalar : K) : mat2 K :=
  let result : mat2 K := mat2.default
  mat2.ofArray (forLoop 4 (fun i r => Function.update r i (matrix.asArray i * scalar))
    result.asArray)

/-- The overload `operator*(const mat3&, float)`. -/
def mat3.smul (matrix : mat3 K) (scalar : K) : mat3 K :=
  let result : mat3 K := mat3.default
  mat3.ofArray (forLoop 9 (fun i r => Function.update r i (matrix.asArray i * scalar))
    result.asArray)

/-- The overload `operator*(const mat4&, float)`. -/
def mat4.smul (matrix : mat4 K) (scalar : K) : mat4 K :=
  let result : mat4 K := mat4.default
  mat4.ofArray (forLoop 16 (fun i r => Function.update r i (matrix.asArray i * scalar))
    result.asArray)

/-- The overload `operator*(const mat2&, const mat2&)`. -/
def mat2.mul (matA matB : mat2 K) : mat2 K :=
  let res : mat2 K := mat2.default
  mat2.ofArray (Flat.Multiply res.asArray matA.asArray 2 2 matB.asArray 2 2).2

/-- The overload `operator*(const mat3&, const mat3&)`. -/
def mat3.mul (matA matB : mat3 K) : mat3 K :=
  let res : mat3 K := mat3.default
  mat3.ofArray (Flat.Multiply res.asArray matA.asArray 3 3 matB.asArray 3 3).2

/-- The overload `operator*(const mat4&, const mat4&)`. -/
def mat4.mul (matA matB : mat4 K) : mat4 K :=
  let res : mat4 K := mat4.default
  mat4.ofArray (Flat.Multiply res.asArray matA.asArray 4 4 matB.asArray 4 4).2

/-! ## Determinant, Cut, Minor, Cofactor, Adjugate -/

/-- The overload `Determinant(const mat2&)`. -/
def mat2.Determinant (matrix : mat2 K) : K :=
  matrix._11 * matrix._22 - matrix._12 * matrix._21

/-- The overload `Cut(const mat3&, int row, int col)`; the loop state is the buffer of `result`
and the running `index`. -/
def mat3.Cut (mat : mat3 K) (row col : Int) : mat2 K :=
  let result : mat2 K := mat2.default
  let index : Int := 0
  mat2.ofArray (forLoop 3 (fun i st =>
    forLoop 3 (fun j st =>
      if i = row ∨ j = col then st
      else
        let target := st.2
        let source := 3 * i + j
        (Function.update st.1 target (mat.asArray source), st.2 + 1)) st)
    (result.asArray, index)).1

/-- The overload `Minor(const mat2&)`, `mat2(mat._22, mat._21, mat._12, mat._11)`. -/
def mat2.Minor (mat : mat2 K) : mat2 K :=
  ⟨mat._22, mat._21, mat._12, mat._11⟩

/-- The overload `Minor(const mat3&)`. -/
def mat3.Minor (mat : mat3 K) : mat3 K :=
  let result : mat3 K := mat3.default
  mat3.ofArray (forLoop 3 (fun i r =>
    forLoop 3 (fun j r =>
      Function.update r (mat3.index i j) (mat2.Determinant (mat3.Cut mat i j))) r)
    result.asArray)

/-- The overload `Cofactor(const mat2&)`. -/
def mat2.Cofactor (mat : mat2 K) : mat2 K :=
  let result : mat2 K := mat2.default
  mat2.ofArray (Flat.Cofactor result.asArray (mat2.Minor mat).asArray 2 2)

/-- The overload `Cofactor(const mat3&)`. -/
def mat3.Cofactor (mat : mat3 K) : mat3 K :=
  let result : mat3 K := mat3.default
  mat3.ofArray (Flat.Cofactor result.asArray (mat3.Minor mat).asArray 3 3)

/-- The overload `Determinant(const mat3&)`. -/
def mat3.Determinant (mat : mat3 K) : K :=
  let result : K := 0
  let cofactor := mat3.Cofactor mat
  forLoop 3 (fun j result =>
    let index := 3 * 0 + j
    result + mat.asArray index * cofactor.asArray (mat3.index 0 j)) result

/-- The overload `Cut(const mat4&, int row, int col)`; the loop state is the buffer of `result`
and the running `index`. -/
def mat4.Cut (mat : mat4 K) (row col : Int) : mat3 K :=
  let result : mat3 K := mat3.default
  let index : Int := 0
  mat3.ofArray (forLoop 4 (fun i st =>
    forLoop 4 (fun j st =>
      if i = row ∨ j = col then st
      else
        let target := st.2
        let source := 4 * i + j
        (Function.update st.1 target (mat.asArray source), st.2 + 1)) st)
    (result.asArray, index)).1

/-- The overload `Minor(const mat4&)`. -/
def mat4.Minor (mat : mat4 K) : mat4 K :=
  let result : mat4 K := mat4.default
  mat4.ofArray (forLoop 4 (fun i r =>
    forLoop 4 (fun j r =>
      Function.update r (mat4.index i j) (mat3.Determinant (mat4.Cut mat i j))) r)
    result.asArray)

/-- The overload `Cofactor(const mat4&)`. -/
def mat4.Cofactor (mat : mat4 K) : mat4 K :=
  let result : mat4 K := mat4.default
  mat4.ofArray (Flat.Cofactor result.asArray (mat4.Minor mat).asArray 4 4)

/-- The overload `Determinant(const mat4&)`. -/
def mat4.Determinant (mat : mat4 K) : K :=
  let result : K := 0
  let cofactor := mat4.Cofactor mat
  forLoop 4 (fun j result =>
    result + mat.asArray (4 * 0 + j) * cofactor.asArray (mat4.index 0 j)) result

/-- The overload `Adjugate(const mat2&)`. -/
def mat2.Adjugate (mat : mat2 K) : mat2 K :=
  mat2.Transpose (mat2.Cofactor mat)

/-- The overload `Adjugate(const mat3&)`. -/
def mat3.Adjugate (mat : mat3 K) : mat3 K :=
  mat3.Transpose (mat3.Cofactor mat)

/-- The overload `Adjugate(const mat4&)`. -/
def mat4.Adjugate (mat : mat4 K) : mat4 K :=
  mat4.Transpose (mat4.Cofactor mat)

/-! ## Inverse -/

/-- The overload `Inverse(const mat2&)`. -/
def mat2.Inverse (mat : mat2 K) : mat2 K :=
  let det := mat2.Determinant mat
  if CMP det 0 then mat2.default
  else mat2.smul (mat2.Adjugate mat) (1 / det)

/-- The overload `Inverse(const mat3&)`. -/
def mat3.Inverse (mat : mat3 K) : mat3 K :=
  let det := mat3.Determinant mat
  if CMP det 0 then mat3.default
  else mat3.smul (mat3.Adjugate mat) (1 / det)

/-- The overload `Inverse(const mat4&)`. -/
def mat4.Inverse (mat : mat4 K) : mat4 K :=
  let det := mat4.Determinant mat
  if CMP det 0 then mat4.default
  else mat4.smul (mat4.Adjugate mat) (1 / det)

/-- The overload `InverseExp(const mat2&)`. -/
def mat2.InverseExp (mat : mat2 K) : mat2 K :=
  let det := mat._11 * mat._22 - mat._12 * mat._21
  if CMP det 0 then mat2.default
  else
    let i_det := 1 / det
    { _11 := mat._22 * i_det
      _12 := -mat._12 * i_det
      _21 := -mat._21 * i_det
      _22 := mat._11 * i_det }

/-- The hand-expanded determinant `det` computed at the start of `InverseExp(const mat4&)`. -/
def mat4.detExp (m : mat4 K) : K :=
  m._11 * m._22 * m._33 * m._44 + m._11 * m._23 * m._34 * m._42 + m._11 * m._24 * m._32 * m._43
    + m._12 * m._21 * m._34 * m._43 + m._12 * m._23 * m._31 * m._44 + m._12 * m._24 * m._33 * m._41
    + m._13 * m._21 * m._32 * m._44 + m._13 * m._22 * m._34 * m._41 + m._13 * m._24 * m._31 * m._42
    + m._14 * m._21 * m._33 * m._42 + m._14 * m._22 * m._31 * m._43 + m._14 * m._23 * m._32 * m._41
    - m._11 * m._22 * m._34 * m._43 - m._11 * m._23 * m._32 * m._44 - m._11 * m._24 * m._33 * m._42
    - m._12 * m._21 * m._33 * m._44 - m._12 * m._23 * m._34 * m._41 - m._12 * m._24 * m._31 * m._43
    - m._13 * m._21 * m._34 * m._42 - m._13 * m._22 * m._31 * m._44 - m._13 * m._24 * m._32 * m._41
    - m._14 * m._21 * m._32 * m._43 - m._14 * m._22 * m._33 * m._41 - m._14 * m._23 * m._31 * m._42

/-- The overload `InverseExp(const mat4&)`. -/
def mat4.InverseExp (m : mat4 K) : mat4 K :=
  let det := mat4.detExp m
  if CMP det 0 then mat4.default
  else
    let i_det := 1 / det
    {
      _11 := (m._22 * m._33 * m._44 + m._23 * m._34 * m._42 + m._24 * m._32 * m._43
          - m._22 * m._34 * m._43 - m._23 * m._32 * m._44 - m._24 * m._33 * m._42) * i_det
      _12 := (m._12 * m._34 * m._43 + m._13 * m._32 * m._44 + m._14 * m._33 * m._42
          - m._12 * m._33 * m._44 - m._13 * m._34 * m._42 - m._14 * m._32 * m._43) * i_det
      _13 := (m._12 * m._23 * m._44 + m._13 * m._24 * m._42 + m._14 * m._22 * m._43
          - m._12 * m._24 * m._43 - m._13 * m._22 * m._44 - m._14 * m._23 * m._42) * i_det
      _14 := (m._12 * m._24 * m._33 + m._13 * m._22 * m._34 + m._14 * m._23 * m._32
          - m._12 * m._23 * m._34 - m._13 * m._24 * m._32 - m._14 * m._22 * m._33) * i_det
      _21 := (m._21 * m._34 * m._43 + m._23 * m._31 * m._44 + m._24 * m._33 * m._41
          - m._21 * m._33 * m._44 - m._23 * m._34 * m._41 - m._24 * m._31 * m._43) * i_det
      _22 := (m._11 * m._33 * m._44 + m._13 * m._34 * m._41 + m._14 * m._31 * m._43
          - m._11 * m._34 * m._43 - m._13 * m._31 * m._44 - m._14 * m._33 * m._41) * i_det
      _23 := (m._11 * m._24 * m._43 + m._13 * m._21 * m._44 + m._14 * m._23 * m._41
          - m._11 * m._23 * m._44 - m._13 * m._24 * m._41 - m._14 * m._21 * m._43) * i_det
      _24 := (m._11 * m._23 * m._34 + m._13 * m._24 * m._31 + m._14 * m._21 * m._33
          - m._11 * m._24 * m._33 - m._13 * m._21 * m._34 - m._14 * m._23 * m._31) * i_det
      _31 := (m._21 * m._32 * m._44 + m._22 * m._34 * m._41 + m._24 * m._31 * m._42
          - m._21 * m._34 * m._42 - m._22 * m._31 * m._44 - m._24 * m._32 * m._41) * i_det
      _32 := (m._11 * m._34 * m._42 + m._12 * m._31 * m._44 + m._14 * m._32 * m._41
          - m._11 * m._32 * m._44 - m._12 * m._34 * m._41 - m._14 * m._31 * m._42) * i_det
      _33 := (m._11 * m._22 * m._44 + m._12 * m._24 * m._41 + m._14 * m._21 * m._42
          - m._11 * m._24 * m._42 - m._12 * m._21 * m._44 - m._14 * m._22 * m._41) * i_det
      _34 := (m._11 * m._24 * m._32 + m._12 * m._21 * m._34 + m._14 * m._22 * m._31
          - m._11 * m._22 * m._34 - m._12 * m._24 * m._31 - m._14 * m._21 * m._32) * i_det
      _41 := (m._21 * m._33 * m._42 + m._22 * m._31 * m._43 + m._23 * m._32 * m._41
          - m._21 * m._32 * m._43 - m._22 * m._33 * m._41 - m._23 * m._31 * m._42) * i_det
      _42 := (m._11 * m._32 * m._43 + m._12 * m._33 * m._41 + m._13 * m._31 * m._42
          - m._11 * m._33 * m._42 - m._12 * m._31 * m._43 - m._13 * m._32 * m._41) * i_det
      _43 := (m._11 * m._23 * m._42 + m._12 * m._21 * m._43 + m._13 * m._22 * m._41
          - m._11 * m._22 * m._43 - m._12 * m._23 * m._41 - m._13 * m._21 * m._42) * i_det
      _44 := (m._11 * m._22 * m._33 + m._12 * m._23 * m._31 + m._13 * m._21 * m._32
          - m._11 * m._23 * m._32 - m._12 * m._21 * m._33 - m._13 * m._22 * m._31) * i_det }

/-! ## Translation -/

/-- The overload `Translation(float x, float y, float z)`. -/
def Translation (x y z : K) : mat4 K :=
  ⟨1, 0, 0, 0,
   0, 1, 0, 0,
   0, 0, 1, 0,
   x, y, z, 1⟩

/-- The overload `Translation(const vec3&)`. -/
def Translation_vec3 (pos : vec3 K) : mat4 K :=
  ⟨1, 0, 0, 0,
   0, 1, 0, 0,
   0, 0, 1, 0,
   pos.x, pos.y, pos.z, 1⟩

/-- The function `GetTranslation(const mat4&)`. -/
def GetTranslation (mat : mat4 K) : vec3 K :=
  ⟨mat._41, mat._42, mat._43⟩

/-! ## Scale -/

/-- The overload `Scale(float x, float y, float z)`. -/
def Scale (x y z : K) : mat4 K :=
  ⟨x, 0, 0, 0,
   0, y, 0, 0,
   0, 0, z, 0,
   0, 0, 0, 1⟩

/-- The overload `Scale(const vec3&)`. -/
def Scale_vec3 (vec : vec3 K) : mat4 K :=
  ⟨vec.x, 0, 0, 0,
   0, vec.y, 0, 0,
   0, 0, vec.z, 0,
   0, 0, 0, 1⟩

/-- The function `GetScale(const mat4&)`. -/
def GetScale (mat : mat4 K) : vec3 K :=
  ⟨mat._11, mat._22, mat._33⟩

/-! ## Rotations -/

/-- The functions the routines take from outside the sources: `cosf`, `sinf` and `sqrtf` of
`<cmath>` and the macro `DEG2RAD` of a header that is not under `src/`.  They are parameters of
the model.  The one call `cos(angle)` in `XRotation` and `XRotation3x3` is the same cosine. -/
structure MathEnv (K : Type) where
  cosf : K → K
  sinf : K → K
  sqrtf : K → K
  DEG2RAD : K → K

/-- Modelled from the spec: the helper `Dot` of the vector module (not under `src/`), the sum of
the products of the components. -/
def Dot (l r : vec3 K) : K :=
  l.x * r.x + l.y * r.y + l.z * r.z

/-- Modelled from the spec: the helper `MagnitudeSq` of the vector module (not under `src/`),
the squared magnitude `x² + y² + z²`. -/
def MagnitudeSq (v : vec3 K) : K :=
  Dot v v

/-- Modelled from the spec: the helper `Magnitude` of the vector module (not under `src/`), the
square root of the squared magnitude. -/
def Magnitude (E : MathEnv K) (v : vec3 K) : K :=
  E.sqrtf (Dot v v)

/-- The function `ZRotation(float angle)`. -/
def ZRotation (E : MathEnv K) (angle : K) : mat4 K :=
  let angle := E.DEG2RAD angle
  ⟨E.cosf angle, E.sinf angle, 0, 0,
   -E.sinf angle, E.cosf angle, 0, 0,
   0, 0, 1, 0,
   0, 0, 0, 1⟩

/-- The function `ZRotation3x3(float angle)`. -/
def ZRotation3x3 (E : MathEnv K) (angle : K) : mat3 K :=
  let angle := E.DEG2RAD angle
  ⟨E.cosf angle, E.sinf angle, 0,
   -E.sinf angle, E.cosf angle, 0,
   0, 0, 1⟩

/-- The function `XRotation(float angle)`. -/
def XRotation (E : MathEnv K) (angle : K) : mat4 K :=
  let angle := E.DEG2RAD angle
  ⟨1, 0, 0, 0,
   0, E.cosf angle, E.sinf angle, 0,
   0, -E.sinf angle, E.cosf angle, 0,
   0, 0, 0, 1⟩

/-- The function `XRotation3x3(float angle)`. -/
def XRotation3x3 (E : MathEnv K) (angle : K) : mat3 K :=
  let angle := E.DEG2RAD angle
  ⟨1, 0, 0,
   0, E.cosf angle, E.sinf angle,
   0, -E.sinf angle, E.cosf angle⟩

/-- The function `YRotation(float angle)`. -/
def YRotation (E : MathEnv K) (angle : K) : mat4 K :=
  let angle := E.DEG2RAD angle
  ⟨E.cosf angle, 0, -E.sinf angle, 0,
   0, 1, 0, 0,
   E.sinf angle, 0, E.cosf angle, 0,
   0, 0, 0, 1⟩

/-- The function `YRotation3x3(float angle)`. -/
def YRotation3x3 (E : MathEnv K) (angle : K) : mat3 K :=
  let angle := E.DEG2RAD angle
  ⟨E.cosf angle, 0, -E.sinf angle,
   0, 1, 0,
   E.sinf angle, 0, E.cosf angle⟩

/-- The function `Rotation(float pitch, float yaw, float roll)`; `*` associates to the left. -/
def Rotation (E : MathEnv K) (pitch yaw roll : K) : mat4 K :=
  mat4.mul (mat4.mul (ZRotation E roll) (XRotation E pitch)) (YRotation E yaw)

/-- The function `Rotation3x3(float pitch, float yaw, float roll)`. -/
def Rotation3x3 (E : MathEnv K) (pitch yaw roll : K) : mat3 K :=
  mat3.mul (mat3.mul (ZRotation3x3 E roll) (XRotation3x3 E pitch)) (YRotation3x3 E yaw)

/-- The function `AxisAngle(const vec3& axis, float angle)`; `xyz` holds the locals `x`, `y`,
`z` after the conditional normalisation. -/
def AxisAngle (E : MathEnv K) (axis : vec3 K) (angle : K) : mat4 K :=
  let angle := E.DEG2RAD angle
  let c := E.cosf angle
  let s := E.sinf angle
  let t := 1 - E.cosf angle
  let x := axis.x
  let y := axis.y
  let z := axis.z
  let xyz : K × K × K :=
    if !CMP (MagnitudeSq axis) 1 then
      let inv_len := 1 / Magnitude E axis
      (x * inv_len, y * inv_len, z * inv_len)
    else (x, y, z)
  let x := xyz.1
  let y := xyz.2.1
  let z := xyz.2.2
  ⟨t*(x*x) + c, t*x*y + s*z, t*x*z - s*y, 0,
     t*x*y - s*z, t*(y*y) + c, t*y*z + s*x, 0,
     t*x*z + s*y, t*y*z - s*x, t*(z*z) + c, 0,
     0, 0, 0, 1⟩

/-- The function `AxisAngle3x3(const vec3& axis, float angle)`; `xyz` holds the locals `x`,
`y`, `z` after the conditional normalisation. -/
def AxisAngle3x3 (E : MathEnv K) (axis : vec3 K) (angle : K) : mat3 K :=
  let angle := E.DEG2RAD angle
  let c := E.cosf angle
  let s := E.sinf angle
  let t := 1 - E.cosf angle
  let x := axis.x
  let y := axis.y
  let z := axis.z
  let xyz : K × K × K :=
    if !CMP (MagnitudeSq axis) 1 then
      let inv_len := 1 / Magnitude E axis
      (x * inv_len, y * inv_len, z * inv_len)
    else (x, y, z)
  let x := xyz.1
  let y := xyz.2.1
  let z := xyz.2.2
  ⟨t * (x * x) + c, t * x * y + s * z, t * x * z - s * y,
     t * x * y - s * z, t * (y * y) + c, t * y * z + s * x,
     t * x * z + s * y, t * y * z - s * x, t * (z * z) + c⟩

/-! ## Instrumented loops -/

/-- The accesses of the generic `Transpose` in the order of execution: iteration `i` stores to
`dstMat[i]` the value read from `srcMat[srcCols * col + row]`; the list holds the pairs
(index stored to, index read). -/
def Flat.Transpose.accesses (srcRows srcCols : Int) : List (Int × Int) :=
  forLoop (srcRows * srcCols) (fun i acc =>
    let row := Int.tdiv i srcRows
    let col := Int.tmod i srcRows
    acc ++ [(i, srcCols * col + row)]) []

/-- The accesses of the generic `Cofactor` in the order of execution: the list of the indices
`t` stored to (each is also the index `s` read). -/
def Flat.Cofactor.accesses (rows cols : Int) : List Int :=
  forLoop rows (fun i acc =>
    forLoop cols (fun j acc =>
      let t := cols * j + i
      acc ++ [t]) acc) []

/-- The loop of `Cut(const mat4&, int row, int col)` started on the buffer `buf`: the final
buffer and the final value of the running `index`. -/
def mat4.Cut.loop (mat : mat4 K) (row col : Int) (buf : Int → K) : (Int → K) × Int :=
  forLoop 4 (fun i st =>
    forLoop 4 (fun j st =>
      if i = row ∨ j = col then st
      else
        let target := st.2
        let source := 4 * i + j
        (Function.update st.1 target (mat.asArray source), st.2 + 1)) st)
    (buf, 0)

/-- The loop of `Cut(const mat3&, int row, int col)` started on the buffer `buf`: the final
buffer and the final value of the running `index`. -/
def mat3.Cut.loop (mat : mat3 K) (row col : Int) (buf : Int → K) : (Int → K) × Int :=
  forLoop 3 (fun i st =>
    forLoop 3 (fun j st =>
      if i = row ∨ j = col then st
      else
        let target := st.2
        let source := 3 * i + j
        (Function.update st.1 target (mat.asArray source), st.2 + 1)) st)
    (buf, 0)

/-! ## Notions used to state the properties -/

/-- The 2x2 identity matrix, `mat2(1, 0, 0, 1)`. -/
def mat2.identity : mat2 K :=
  ⟨1, 0,
   0, 1⟩

/-- The 3x3 identity matrix. -/
def mat3.identity : mat3 K :=
  ⟨1, 0, 0,
   0, 1, 0,
   0, 0, 1⟩

/-- The 4x4 identity matrix. -/
def mat4.identity : mat4 K :=
  ⟨1, 0, 0, 0,
   0, 1, 0, 0,
   0, 0, 1, 0,
   0, 0, 0, 1⟩

/-- The entries of a `mat2` as a matrix over `Fin 2`; row `r`, column `c` holds `_rc`. -/
def mat2.toMatrix (m : mat2 K) : Matrix (Fin 2) (Fin 2) K :=
  !![m._11, m._12;
     m._21, m._22]

/-- The entries of a `mat3` as a matrix over `Fin 3`; row `r`, column `c` holds `_rc`. -/
def mat3.toMatrix (m : mat3 K) : Matrix (Fin 3) (Fin 3) K :=
  !![m._11, m._12, m._13;
     m._21, m._22, m._23;
     m._31, m._32, m._33]

/-- The entries of a `mat4` as a matrix over `Fin 4`; row `r`, column `c` holds `_rc`. -/
def mat4.toMatrix (m : mat4 K) : Matrix (Fin 4) (Fin 4) K :=
  !![m._11, m._12, m._13, m._14;
     m._21, m._22, m._23, m._24;
     m._31, m._32, m._33, m._34;
     m._41, m._42, m._43, m._44]

/-- The flat buffer holding the 1x4 row vector `(a, b, c, d)`. -/
def rowVec4 (a b c d : K) : Int → K := fun i =>
  if i = 0 then a else if i = 1 then b else if i = 2 then c else if i = 3 then d else 0

/-- The flat buffer holding the three components `(a, b, c)` of a 1x3 row vector or of a 3x1
column vector. -/
def vec3Buf (a b c : K) : Int → K := fun i =>
  if i = 0 then a else if i = 1 then b else if i = 2 then c else 0

/-- The first-row expansion of a 3x3 determinant, as a polynomial in the nine entries. -/
def det3 (a b c d e f g h i : K) : K :=
  a * (e * i - f * h) - b * (d * i - f * g) + c * (d * h - e * g)

end Model

/-! ## Closed forms of the loop-based routines

Each routine is evaluated once and for all on a matrix given by its entries. -/

section ClosedForms

variable {K : Type} [LinearOrderedField K]

theorem forLoop_one {σ : Type} (body : Int → σ → σ) (s : σ) :
    forLoop 1 body s = body 0 s :=
  rfl

theorem forLoop_two {σ : Type} (body : Int → σ → σ) (s : σ) :
    forLoop 2 body s = body 1 (body 0 s) :=
  rfl

theorem forLoop_three {σ : Type} (body : Int → σ → σ) (s : σ) :
    forLoop 3 body s = body 2 (body 1 (body 0 s)) :=
  rfl

theorem forLoop_four {σ : Type} (body : Int → σ → σ) (s : σ) :
    forLoop 4 body s = body 3 (body 2 (body 1 (body 0 s))) :=
  rfl

theorem mat2_Transpose_mk (a11 a12 a21 a22 : K) :
    mat2.Transpose ⟨a11, a12, a21, a22⟩ =
      ⟨a11, a21, a12, a22⟩ :=
  rfl

theorem mat2_smul_mk (a11 a12 a21 a22 s : K) :
    mat2.smul ⟨a11, a12, a21, a22⟩ s =
      ⟨a11 * s, a12 * s, a21 * s, a22 * s⟩ :=
  rfl

theorem mat2_mul_mk (a11 a12 a21 a22 b11 b12 b21 b22 : K) :
    mat2.mul ⟨a11, a12, a21, a22⟩
      ⟨b11, b12, b21, b22⟩ =
      ⟨0 + a11 * b11 + a12 * b21, 0 + a11 * b12 + a12 * b22, 0 + a21 * b11 + a22 * b21,
       0 + a21 * b12 + a22 * b22⟩ :=
  rfl

theorem mat3_Transpose_mk (a11 a12 a13 a21 a22 a23 a31 a32 a33 : K) :
    mat3.Transpose ⟨a11, a12, a13, a21, a22, a23, a31, a32, a33⟩ =
      ⟨a11, a21, a31, a12, a22, a32, a13, a23, a33⟩ :=
  rfl

theorem mat3_smul_mk (a11 a12 a13 a21 a22 a23 a31 a32 a33 s : K) :
    mat3.smul ⟨a11, a12, a13, a21, a22, a23, a31, a32, a33⟩ s =
      ⟨a11 * s, a12 * s, a13 * s, a21 * s, a22 * s, a23 * s, a31 * s, a32 * s, a33 * s⟩ :=
  rfl

theorem mat3_mul_mk (a11 a12 a13 a21 a22 a23 a31 a32 a33 b11 b12 b13 b21 b22 b23 b31 b32 b33 : K) :
    mat3.mul ⟨a11, a12, a13, a21, a22, a23, a31, a32, a33⟩
      ⟨b11, b12, b13, b21, b22, b23, b31, b32, b33⟩ =
      ⟨0 + a11 * b11 + a12 * b21 + a13 * b31, 0 + a11 * b12 + a12 * b22 + a13 * b32,
       0 + a11 * b13 + a12 * b23 + a13 * b33, 0 + a21 * b11 + a22 * b21 + a23 * b31,
       0 + a21 * b12 + a22 * b22 + a23 * b32, 0 + a21 * b13 + a22 * b23 + a23 * b33,
       0 + a31 * b11 + a32 * b21 + a33 * b31, 0 + a31 * b12 + a32 * b22 + a33 * b32,
       0 + a31 * b13 + a32 * b23 + a33 * b33⟩ :=
  rfl

theorem mat4_Transpose_mk (a11 a12 a13 a14 a21 a22 a23 a24 a31 a32 a33 a34 a41 a42 a43 a44 : K) :
    mat4.Transpose ⟨a11, a12, a13, a14, a21, a22, a23, a24, a31, a32, a33, a34, a41, a42, a43, a44⟩ =
      ⟨a11, a21, a31, a41, a12, a22, a32, a42, a13, a23, a33, a43, a14, a24, a34, a44⟩ :=
  rfl

theorem mat4_smul_mk (a11 a12 a13 a14 a21 a22 a23 a24 a31 a32 a33 a34 a41 a42 a43 a44 s : K) :
    mat4.smul ⟨a11, a12, a13, a14, a21, a22, a23, a24, a31, a32, a33, a34, a41, a42, a43, a44⟩ s =
      ⟨a11 * s, a12 * s, a13 * s, a14 * s, a21 * s, a22 * s, a23 * s, a24 * s, a31 * s, a32 * s,
       a33 * s, a34 * s, a41 * s, a42 * s, a43 * s, a44 * s⟩ :=
  rfl

theorem mat4_mul_mk (a11 a12 a13 a14 a21 a22 a23 a24 a31 a32 a33 a34 a41 a42 a43 a44 b11 b12 b13 b14 b21 b22 b23 b24 b31 b32 b33 b34 b41 b42 b43 b44 : K) :
    mat4.mul ⟨a11, a12, a13, a14, a21, a22, a23, a24, a31, a32, a33, a34, a41, a42, a43, a44⟩
      ⟨b11, b12, b13, b14, b21, b22, b23, b24, b31, b32, b33, b34, b41, b42, b43, b44⟩ =
      ⟨0 + a11 * b11 + a12 * b21 + a13 * b31 + a14 * b41,
       0 + a11 * b12 + a12 * b22 + a13 * b32 + a14 * b42,
       0 + a11 * b13 + a12 * b23 + a13 * b33 + a14 * b43,
       0 + a11 * b14 + a12 * b24 + a13 * b34 + a14 * b44,
       0 + a21 * b11 + a22 * b21 + a23 * b31 + a24 * b41,
       0 + a21 * b12 + a22 * b22 + a23 * b32 + a24 * b42,
       0 + a21 * b13 + a22 * b23 + a23 * b33 + a24 * b43,
       0 + a21 * b14 + a22 * b24 + a23 * b34 + a24 * b44,
       0 + a31 * b11 + a32 * b21 + a33 * b31 + a34 * b41,
       0 + a31 * b12 + a32 * b22 + a33 * b32 + a34 * b42,
       0 + a31 * b13 + a32 * b23 + a33 * b33 + a34 * b43,
       0 + a31 * b14 + a32 * b24 + a33 * b34 + a34 * b44,
       0 + a41 * b11 + a42 * b21 + a43 * b31 + a44 * b41,
       0 + a41 * b12 + a42 * b22 + a43 * b32 + a44 * b42,
       0 + a41 * b13 + a42 * b23 + a43 * b33 + a44 * b43,
       0 + a41 * b14 + a42 * b24 + a43 * b34 + a44 * b44⟩ :=
  rfl

theorem mat2_Cofactor_mk (a11 a12 a21 a22 : K) :
    mat2.Cofactor ⟨a11, a12, a21, a22⟩ = ⟨a22, -a21, -a12, a11⟩ := by
  simp [mat2.Cofactor, Flat.Cofactor, mat2.Minor, mat2.asArray, mat2.ofArray, mat2.default,
    forLoop_two, forLoop_three, forLoop_four, Function.update]
  norm_num

theorem mat3_Minor_mk (a11 a12 a13 a21 a22 a23 a31 a32 a33 : K) :
    mat3.Minor ⟨a11, a12, a13, a21, a22, a23, a31, a32, a33⟩ =
      ⟨a22 * a33 - a23 * a32, a21 * a33 - a23 * a31, a21 * a32 - a22 * a31, a12 * a33 - a13 * a32,
       a11 * a33 - a13 * a31, a11 * a32 - a12 * a31, a12 * a23 - a13 * a22, a11 * a23 - a13 * a21,
       a11 * a22 - a12 * a21⟩ :=
  rfl

theorem mat3_Cofactor_mk (a11 a12 a13 a21 a22 a23 a31 a32 a33 : K) :
    mat3.Cofactor ⟨a11, a12, a13, a21, a22, a23, a31, a32, a33⟩ =
      ⟨(a22 * a33 - a23 * a32), -(a21 * a33 - a23 * a31), (a21 * a32 - a22 * a31),
       -(a12 * a33 - a13 * a32), (a11 * a33 - a13 * a31), -(a11 * a32 - a12 * a31),
       (a12 * a23 - a13 * a22), -(a11 * a23 - a13 * a21), (a11 * a22 - a12 * a21)⟩ := by
  simp [mat3.Cofactor, Flat.Cofactor, mat3_Minor_mk, mat3.asArray, mat3.ofArray, mat3.default,
    forLoop_two, forLoop_three, forLoop_four, Function.update]
  norm_num

theorem mat3_Determinant_mk (a11 a12 a13 a21 a22 a23 a31 a32 a33 : K) :
    mat3.Determinant ⟨a11, a12, a13, a21, a22, a23, a31, a32, a33⟩ =
      det3 a11 a12 a13 a21 a22 a23 a31 a32 a33 := by
  simp [mat3.Determinant, mat3_Cofactor_mk, mat3.asArray, mat3.index, det3, forLoop_three]
  ring

theorem mat4_Cut_mk (a11 a12 a13 a14 a21 a22 a23 a24 a31 a32 a33 a34 a41 a42 a43 a44 : K) :
    let M : mat4 K := ⟨a11, a12, a13, a14, a21, a22, a23, a24, a31, a32, a33, a34, a41, a42, a43, a44⟩
    mat4.Cut M 0 0 =
        ⟨a22, a23, a24, a32, a33, a34, a42, a43, a44⟩ ∧
      mat4.Cut M 0 1 =
        ⟨a21, a23, a24, a31, a33, a34, a41, a43, a44⟩ ∧
      mat4.Cut M 0 2 =
        ⟨a21, a22, a24, a31, a32, a34, a41, a42, a44⟩ ∧
      mat4.Cut M 0 3 =
        ⟨a21, a22, a23, a31, a32, a33, a41, a42, a43⟩ ∧
      mat4.Cut M 1 0 =
        ⟨a12, a13, a14, a32, a33, a34, a42, a43, a44⟩ ∧
      mat4.Cut M 1 1 =
        ⟨a11, a13, a14, a31, a33, a34, a41, a43, a44⟩ ∧
      mat4.Cut M 1 2 =
        ⟨a11, a12, a14, a31, a32, a34, a41, a42, a44⟩ ∧
      mat4.Cut M 1 3 =
        ⟨a11, a12, a13, a31, a32, a33, a41, a42, a43⟩ ∧
      mat4.Cut M 2 0 =
        ⟨a12, a13, a14, a22, a23, a24, a42, a43, a44⟩ ∧
      mat4.Cut M 2 1 =
        ⟨a11, a13, a14, a21, a23, a24, a41, a43, a44⟩ ∧
      mat4.Cut M 2 2 =
        ⟨a11, a12, a14, a21, a22, a24, a41, a42, a44⟩ ∧
      mat4.Cut M 2 3 =
        ⟨a11, a12, a13, a21, a22, a23, a41, a42, a43⟩ ∧
      mat4.Cut M 3 0 =
        ⟨a12, a13, a14, a22, a23, a24, a32, a33, a34⟩ ∧
      mat4.Cut M 3 1 =
        ⟨a11, a13, a14, a21, a23, a24, a31, a33, a34⟩ ∧
      mat4.Cut M 3 2 =
        ⟨a11, a12, a14, a21, a22, a24, a31, a32, a34⟩ ∧
      mat4.Cut M 3 3 =
        ⟨a11, a12, a13, a21, a22, a23, a31, a32, a33⟩ :=
  ⟨rfl, rfl, rfl, rfl, rfl, rfl, rfl, rfl, rfl, rfl, rfl, rfl, rfl, rfl, rfl, rfl⟩

theorem mat4_Minor_mk (a11 a12 a13 a14 a21 a22 a23 a24 a31 a32 a33 a34 a41 a42 a43 a44 : K) :
    mat4.Minor ⟨a11, a12, a13, a14, a21, a22, a23, a24, a31, a32, a33, a34, a41, a42, a43, a44⟩ =
      ⟨det3 a22 a23 a24 a32 a33 a34 a42 a43 a44,
       det3 a21 a23 a24 a31 a33 a34 a41 a43 a44,
       det3 a21 a22 a24 a31 a32 a34 a41 a42 a44,
       det3 a21 a22 a23 a31 a32 a33 a41 a42 a43,
       det3 a12 a13 a14 a32 a33 a34 a42 a43 a44,
       det3 a11 a13 a14 a31 a33 a34 a41 a43 a44,
       det3 a11 a12 a14 a31 a32 a34 a41 a42 a44,
       det3 a11 a12 a13 a31 a32 a33 a41 a42 a43,
       det3 a12 a13 a14 a22 a23 a24 a42 a43 a44,
       det3 a11 a13 a14 a21 a23 a24 a41 a43 a44,
       det3 a11 a12 a14 a21 a22 a24 a41 a42 a44,
       det3 a11 a12 a13 a21 a22 a23 a41 a42 a43,
       det3 a12 a13 a14 a22 a23 a24 a32 a33 a34,
       det3 a11 a13 a14 a21 a23 a24 a31 a33 a34,
       det3 a11 a12 a14 a21 a22 a24 a31 a32 a34,
       det3 a11 a12 a13 a21 a22 a23 a31 a32 a33⟩ := by
  unfold mat4.Minor
  simp only [forLoop_four]
  simp only [mat4_Cut_mk, mat3_Determinant_mk]
  simp [mat4.index, mat4.asArray, mat4.ofArray, mat4.default, Function.update]

theorem mat4_Cofactor_mk (a11 a12 a13 a14 a21 a22 a23 a24 a31 a32 a33 a34 a41 a42 a43 a44 : K) :
    mat4.Cofactor ⟨a11, a12, a13, a14, a21, a22, a23, a24, a31, a32, a33, a34, a41, a42, a43, a44⟩ =
      ⟨det3 a22 a23 a24 a32 a33 a34 a42 a43 a44,
       -(det3 a21 a23 a24 a31 a33 a34 a41 a43 a44),
       det3 a21 a22 a24 a31 a32 a34 a41 a42 a44,
       -(det3 a21 a22 a23 a31 a32 a33 a41 a42 a43),
       -(det3 a12 a13 a14 a32 a33 a34 a42 a43 a44),
       det3 a11 a13 a14 a31 a33 a34 a41 a43 a44,
       -(det3 a11 a12 a14 a31 a32 a34 a41 a42 a44),
       det3 a11 a12 a13 a31 a32 a33 a41 a42 a43,
       det3 a12 a13 a14 a22 a23 a24 a42 a43 a44,
       -(det3 a11 a13 a14 a21 a23 a24 a41 a43 a44),
       det3 a11 a12 a14 a21 a22 a24 a41 a42 a44,
       -(det3 a11 a12 a13 a21 a22 a23 a41 a42 a43),
       -(det3 a12 a13 a14 a22 a23 a24 a32 a33 a34),
       det3 a11 a13 a14 a21 a23 a24 a31 a33 a34,
       -(det3 a11 a12 a14 a21 a22 a24 a31 a32 a34),
       det3 a11 a12 a13 a21 a22 a23 a31 a32 a33⟩ := by
  simp [mat4.Cofactor, Flat.Cofactor, mat4_Minor_mk, mat4.asArray,
    mat4.ofArray, mat4.default, forLoop_two, forLoop_three, forLoop_four, Function.update]
  norm_num

theorem mat4_Determinant_mk (a11 a12 a13 a14 a21 a22 a23 a24 a31 a32 a33 a34 a41 a42 a43 a44 : K) :
    mat4.Determinant ⟨a11, a12, a13, a14, a21, a22, a23, a24, a31, a32, a33, a34, a41, a42, a43, a44⟩ =
      a11 * det3 a22 a23 a24 a32 a33 a34 a42 a43 a44
        - a12 * det3 a21 a23 a24 a31 a33 a34 a41 a43 a44
        + a13 * det3 a21 a22 a24 a31 a32 a34 a41 a42 a44
        - a14 * det3 a21 a22 a23 a31 a32 a33 a41 a42 a43 := by
  simp [mat4.Determinant, mat4_Cofactor_mk, mat4.asArray, mat4.index, forLoop_four]
  ring

end ClosedForms

/-! ## Algebra of the fixed-size routines -/

section Algebra

variable {K : Type} [LinearOrderedField K]

theorem FLT_EPSILON_pos : (0 : K) < FLT_EPSILON := by
  unfold FLT_EPSILON
  positivity

theorem FLT_EPSILON_lt_one : (FLT_EPSILON : K) < 1 := by
  unfold FLT_EPSILON
  rw [div_lt_one (by norm_num)]
  norm_num

/-- Against zero, `CMP` is the absolute test `|d| ≤ FLT_EPSILON`. -/
theorem CMP_zero_eq_true_iff (d : K) : CMP d 0 = true ↔ |d| ≤ FLT_EPSILON := by
  have hpos : (0 : K) < FLT_EPSILON := FLT_EPSILON_pos
  have hlt : (FLT_EPSILON : K) < 1 := FLT_EPSILON_lt_one
  have habs : (0 : K) ≤ |d| := abs_nonneg d
  simp only [CMP, sub_zero, abs_zero, decide_eq_true_eq, max_eq_left habs]
  rcases le_total |d| 1 with h | h
  · rw [max_eq_left h, mul_one]
  · rw [max_eq_right h]
    constructor
    · intro h1
      rcases eq_or_lt_of_le habs with h0 | h0
      · rw [← h0]; exact hpos.le
      · have : FLT_EPSILON * |d| < 1 * |d| := mul_lt_mul_of_pos_right hlt h0
        linarith
    · intro h1
      linarith

theorem CMP_zero_eq_false_iff (d : K) : CMP d 0 = false ↔ FLT_EPSILON < |d| := by
  rw [← not_le, ← CMP_zero_eq_true_iff, Bool.not_eq_true]

theorem ne_zero_of_CMP_zero_eq_false {d : K} (h : CMP d 0 = false) : d ≠ 0 := by
  rintro rfl
  have := (CMP_zero_eq_false_iff (0 : K)).1 h
  rw [abs_zero] at this
  exact absurd this (not_lt.2 FLT_EPSILON_pos.le)

theorem mat2_Adjugate_mul (m : mat2 K) :
    mat2.mul (mat2.Adjugate m) m = mat2.smul mat2.identity (mat2.Determinant m) := by
  obtain ⟨a11, a12, a21, a22⟩ := m
  simp only [mat2.Adjugate, mat2_Cofactor_mk, mat2_Transpose_mk, mat2_mul_mk, mat2.identity,
    mat2_smul_mk, mat2.Determinant, mat2.mk.injEq]
  refine ⟨?_, ?_, ?_, ?_⟩ <;> ring

theorem mat2_mul_Adjugate (m : mat2 K) :
    mat2.mul m (mat2.Adjugate m) = mat2.smul mat2.identity (mat2.Determinant m) := by
  obtain ⟨a11, a12, a21, a22⟩ := m
  simp only [mat2.Adjugate, mat2_Cofactor_mk, mat2_Transpose_mk, mat2_mul_mk, mat2.identity,
    mat2_smul_mk, mat2.Determinant, mat2.mk.injEq]
  refine ⟨?_, ?_, ?_, ?_⟩ <;> ring

theorem mat3_Adjugate_mul (m : mat3 K) :
    mat3.mul (mat3.Adjugate m) m = mat3.smul mat3.identity (mat3.Determinant m) := by
  obtain ⟨a11, a12, a13, a21, a22, a23, a31, a32, a33⟩ := m
  simp only [mat3.Adjugate, mat3_Cofactor_mk, mat3_Transpose_mk, mat3_mul_mk, mat3.identity,
    mat3_smul_mk, mat3_Determinant_mk, det3, mat3.mk.injEq]
  refine ⟨?_, ?_, ?_, ?_, ?_, ?_, ?_, ?_, ?_⟩ <;> ring

theorem mat3_mul_Adjugate (m : mat3 K) :
    mat3.mul m (mat3.Adjugate m) = mat3.smul mat3.identity (mat3.Determinant m) := by
  obtain ⟨a11, a12, a13, a21, a22, a23, a31, a32, a33⟩ := m
  simp only [mat3.Adjugate, mat3_Cofactor_mk, mat3_Transpose_mk, mat3_mul_mk, mat3.identity,
    mat3_smul_mk, mat3_Determinant_mk, det3, mat3.mk.injEq]
  refine ⟨?_, ?_, ?_, ?_, ?_, ?_, ?_, ?_, ?_⟩ <;> ring

theorem mat4_Adjugate_mul (m : mat4 K) :
    mat4.mul (mat4.Adjugate m) m = mat4.smul mat4.identity (mat4.Determinant m) := by
  obtain ⟨a11, a12, a13, a14, a21, a22, a23, a24, a31, a32, a33, a34, a41, a42, a43, a44⟩ := m
  simp only [mat4.Adjugate, mat4_Cofactor_mk, mat4_Transpose_mk, mat4_mul_mk, mat4.identity,
    mat4_smul_mk, mat4_Determinant_mk, det3, mat4.mk.injEq]
  refine ⟨?_, ?_, ?_, ?_, ?_, ?_, ?_, ?_, ?_, ?_, ?_, ?_, ?_, ?_, ?_, ?_⟩ <;> ring

theorem mat4_mul_Adjugate (m : mat4 K) :
    mat4.mul m (mat4.Adjugate m) = mat4.smul mat4.identity (mat4.Determinant m) := by
  obtain ⟨a11, a12, a13, a14, a21, a22, a23, a24, a31, a32, a33, a34, a41, a42, a43, a44⟩ := m
  simp only [mat4.Adjugate, mat4_Cofactor_mk, mat4_Transpose_mk, mat4_mul_mk, mat4.identity,
    mat4_smul_mk, mat4_Determinant_mk, det3, mat4.mk.injEq]
  refine ⟨?_, ?_, ?_, ?_, ?_, ?_, ?_, ?_, ?_, ?_, ?_, ?_, ?_, ?_, ?_, ?_⟩ <;> ring

theorem mat2_smul_mul (a b : mat2 K) (s : K) :
    mat2.mul (mat2.smul a s) b = mat2.smul (mat2.mul a b) s := by
  obtain ⟨a11, a12, a21, a22⟩ := a
  obtain ⟨b11, b12, b21, b22⟩ := b
  simp only [mat2_mul_mk, mat2_smul_mk, mat2.mk.injEq]
  refine ⟨?_, ?_, ?_, ?_⟩ <;> ring

theorem mat2_mul_smul (a b : mat2 K) (s : K) :
    mat2.mul a (mat2.smul b s) = mat2.smul (mat2.mul a b) s := by
  obtain ⟨a11, a12, a21, a22⟩ := a
  obtain ⟨b11, b12, b21, b22⟩ := b
  simp only [mat2_mul_mk, mat2_smul_mk, mat2.mk.injEq]
  refine ⟨?_, ?_, ?_, ?_⟩ <;> ring

theorem mat3_smul_mul (a b : mat3 K) (s : K) :
    mat3.mul (mat3.smul a s) b = mat3.smul (mat3.mul a b) s := by
  obtain ⟨a11, a12, a13, a21, a22, a23, a31, a32, a33⟩ := a
  obtain ⟨b11, b12, b13, b21, b22, b23, b31, b32, b33⟩ := b
  simp only [mat3_mul_mk, mat3_smul_mk, mat3.mk.injEq]
  refine ⟨?_, ?_, ?_, ?_, ?_, ?_, ?_, ?_, ?_⟩ <;> ring

theorem mat3_mul_smul (a b : mat3 K) (s : K) :
    mat3.mul a (mat3.smul b s) = mat3.smul (mat3.mul a b) s := by
  obtain ⟨a11, a12, a13, a21, a22, a23, a31, a32, a33⟩ := a
  obtain ⟨b11, b12, b13, b21, b22, b23, b31, b32, b33⟩ := b
  simp only [mat3_mul_mk, mat3_smul_mk, mat3.mk.injEq]
  refine ⟨?_, ?_, ?_, ?_, ?_, ?_, ?_, ?_, ?_⟩ <;> ring

theorem mat4_smul_mul (a b : mat4 K) (s : K) :
    mat4.mul (mat4.smul a s) b = mat4.smul (mat4.mul a b) s := by
  obtain ⟨a11, a12, a13, a14, a21, a22, a23, a24, a31, a32, a33, a34, a41, a42, a43, a44⟩ := a
  obtain ⟨b11, b12, b13, b14, b21, b22, b23, b24, b31, b32, b33, b34, b41, b42, b43, b44⟩ := b
  simp only [mat4_mul_mk, mat4_smul_mk, mat4.mk.injEq]
  refine ⟨?_, ?_, ?_, ?_, ?_, ?_, ?_, ?_, ?_, ?_, ?_, ?_, ?_, ?_, ?_, ?_⟩ <;> ring

theorem mat4_mul_smul (a b : mat4 K) (s : K) :
    mat4.mul a (mat4.smul b s) = mat4.smul (mat4.mul a b) s := by
  obtain ⟨a11, a12, a13, a14, a21, a22, a23, a24, a31, a32, a33, a34, a41, a42, a43, a44⟩ := a
  obtain ⟨b11, b12, b13, b14, b21, b22, b23, b24, b31, b32, b33, b34, b41, b42, b43, b44⟩ := b
  simp only [mat4_mul_mk, mat4_smul_mk, mat4.mk.injEq]
  refine ⟨?_, ?_, ?_, ?_, ?_, ?_, ?_, ?_, ?_, ?_, ?_, ?_, ?_, ?_, ?_, ?_⟩ <;> ring

theorem mat2_smul_identity_smul {d : K} (hd : d ≠ 0) :
    mat2.smul (mat2.smul mat2.identity d) (1 / d) = mat2.identity := by
  simp [mat2.identity, mat2_smul_mk, hd]

theorem mat3_smul_identity_smul {d : K} (hd : d ≠ 0) :
    mat3.smul (mat3.smul mat3.identity d) (1 / d) = mat3.identity := by
  simp [mat3.identity, mat3_smul_mk, hd]

theorem mat4_smul_identity_smul {d : K} (hd : d ≠ 0) :
    mat4.smul (mat4.smul mat4.identity d) (1 / d) = mat4.identity := by
  simp [mat4.identity, mat4_smul_mk, hd]

theorem mat2_Inverse_of_CMP_false (m : mat2 K) (h : CMP (mat2.Determinant m) 0 = false) :
    mat2.Inverse m = mat2.smul (mat2.Adjugate m) (1 / mat2.Determinant m) := by
  simp [mat2.Inverse, h]

theorem mat3_Inverse_of_CMP_false (m : mat3 K) (h : CMP (mat3.Determinant m) 0 = false) :
    mat3.Inverse m = mat3.smul (mat3.Adjugate m) (1 / mat3.Determinant m) := by
  simp [mat3.Inverse, h]

theorem mat4_Inverse_of_CMP_false (m : mat4 K) (h : CMP (mat4.Determinant m) 0 = false) :
    mat4.Inverse m = mat4.smul (mat4.Adjugate m) (1 / mat4.Determinant m) := by
  simp [mat4.Inverse, h]

theorem mat2_Inverse_mul (m : mat2 K) (h : CMP (mat2.Determinant m) 0 = false) :
    mat2.mul (mat2.Inverse m) m = mat2.identity := by
  rw [mat2_Inverse_of_CMP_false m h, mat2_smul_mul, mat2_Adjugate_mul,
    mat2_smul_identity_smul (ne_zero_of_CMP_zero_eq_false h)]

theorem mat2_mul_Inverse (m : mat2 K) (h : CMP (mat2.Determinant m) 0 = false) :
    mat2.mul m (mat2.Inverse m) = mat2.identity := by
  rw [mat2_Inverse_of_CMP_false m h, mat2_mul_smul, mat2_mul_Adjugate,
    mat2_smul_identity_smul (ne_zero_of_CMP_zero_eq_false h)]

theorem mat3_Inverse_mul (m : mat3 K) (h : CMP (mat3.Determinant m) 0 = false) :
    mat3.mul (mat3.Inverse m) m = mat3.identity := by
  rw [mat3_Inverse_of_CMP_false m h, mat3_smul_mul, mat3_Adjugate_mul,
    mat3_smul_identity_smul (ne_zero_of_CMP_zero_eq_false h)]

theorem mat3_mul_Inverse (m : mat3 K) (h : CMP (mat3.Determinant m) 0 = false) :
    mat3.mul m (mat3.Inverse m) = mat3.identity := by
  rw [mat3_Inverse_of_CMP_false m h, mat3_mul_smul, mat3_mul_Adjugate,
    mat3_smul_identity_smul (ne_zero_of_CMP_zero_eq_false h)]

theorem mat4_Inverse_mul (m : mat4 K) (h : CMP (mat4.Determinant m) 0 = false) :
    mat4.mul (mat4.Inverse m) m = mat4.identity := by
  rw [mat4_Inverse_of_CMP_false m h, mat4_smul_mul, mat4_Adjugate_mul,
    mat4_smul_identity_smul (ne_zero_of_CMP_zero_eq_false h)]

theorem mat4_mul_Inverse (m : mat4 K) (h : CMP (mat4.Determinant m) 0 = false) :
    mat4.mul m (mat4.Inverse m) = mat4.identity := by
  rw [mat4_Inverse_of_CMP_false m h, mat4_mul_smul, mat4_mul_Adjugate,
    mat4_smul_identity_smul (ne_zero_of_CMP_zero_eq_false h)]

end Algebra

/-! ## Properties of the specification -/

section Claims

variable {K : Type} [LinearOrderedField K]

theorem mat4_detExp_eq_Determinant (m : mat4 K) : mat4.detExp m = mat4.Determinant m := by
  obtain ⟨a11, a12, a13, a14, a21, a22, a23, a24, a31, a32, a33, a34, a41, a42, a43, a44⟩ := m
  simp only [mat4.detExp, mat4_Determinant_mk, det3]
  ring

theorem mat2_InverseExp_eq_Inverse (m : mat2 K) : mat2.InverseExp m = mat2.Inverse m := by
  obtain ⟨a11, a12, a21, a22⟩ := m
  simp only [mat2.InverseExp, mat2.Inverse, mat2.Determinant, mat2.Adjugate, mat2_Cofactor_mk,
    mat2_Transpose_mk, mat2_smul_mk]

theorem mat4_InverseExp_eq_Inverse (m : mat4 K) : mat4.InverseExp m = mat4.Inverse m := by
  unfold mat4.InverseExp mat4.Inverse
  simp only [mat4_detExp_eq_Determinant]
  split
  · rfl
  · obtain ⟨a11, a12, a13, a14, a21, a22, a23, a24, a31, a32, a33, a34, a41, a42, a43, a44⟩ := m
    simp only [mat4.Adjugate, mat4_Cofactor_mk, mat4_Transpose_mk, mat4_smul_mk, det3,
      mat4.mk.injEq]
    refine ⟨?_, ?_, ?_, ?_, ?_, ?_, ?_, ?_, ?_, ?_, ?_, ?_, ?_, ?_, ?_, ?_⟩ <;> ring

theorem mat2_Determinant_eq_det (m : mat2 K) : mat2.Determinant m = (mat2.toMatrix m).det := by
  simp [mat2.Determinant, mat2.toMatrix, Matrix.det_fin_two]

theorem mat3_Determinant_eq_det (m : mat3 K) : mat3.Determinant m = (mat3.toMatrix m).det := by
  obtain ⟨a11, a12, a13, a21, a22, a23, a31, a32, a33⟩ := m
  simp [mat3_Determinant_mk, det3, mat3.toMatrix, Matrix.det_fin_three]
  ring

theorem mat4_Determinant_eq_det (m : mat4 K) : mat4.Determinant m = (mat4.toMatrix m).det := by
  obtain ⟨a11, a12, a13, a14, a21, a22, a23, a24, a31, a32, a33, a34, a41, a42, a43, a44⟩ := m
  have h23 : Fin.succ (2 : Fin 3) = (3 : Fin 4) := rfl
  have h22 : Fin.castSucc (2 : Fin 3) = (2 : Fin 4) := rfl
  have h13 : (1 : Fin 4) < 3 := by decide
  simp [mat4_Determinant_mk, det3, mat4.toMatrix, Matrix.det_succ_row_zero, Fin.sum_univ_succ,
    Matrix.det_fin_three, Fin.succAbove, h23, h22, h13]
  ring


theorem mat2_Inverse_of_CMP_true (m : mat2 K) (h : CMP (mat2.Determinant m) 0 = true) :
    mat2.Inverse m = mat2.default := by
  simp [mat2.Inverse, h]

theorem mat3_Inverse_of_CMP_true (m : mat3 K) (h : CMP (mat3.Determinant m) 0 = true) :
    mat3.Inverse m = mat3.default := by
  simp [mat3.Inverse, h]

theorem mat4_Inverse_of_CMP_true (m : mat4 K) (h : CMP (mat4.Determinant m) 0 = true) :
    mat4.Inverse m = mat4.default := by
  simp [mat4.Inverse, h]

/-- C1 as stated fails: the matrices `2⁻¹² · I` (2x2), `2⁻⁸ · I` (3x3) and `2⁻⁶ · I` (4x4) have the
nonzero determinant `2⁻²⁴`, yet `Inverse(M) * M` is not the identity, because `Inverse` returns
the default matrix whenever `CMP(det, 0)` holds. -/
theorem C1_counterexample :
    (mat2.Determinant (⟨1 / 4096, 0, 0, 1 / 4096⟩ : mat2 ℚ) ≠ 0 ∧
      mat2.mul (mat2.Inverse (⟨1 / 4096, 0, 0, 1 / 4096⟩ : mat2 ℚ)) ⟨1 / 4096, 0, 0, 1 / 4096⟩
        ≠ mat2.identity) ∧
    (mat3.Determinant (⟨1 / 256, 0, 0, 0, 1 / 256, 0, 0, 0, 1 / 256⟩ : mat3 ℚ) ≠ 0 ∧
      mat3.mul (mat3.Inverse (⟨1 / 256, 0, 0, 0, 1 / 256, 0, 0, 0, 1 / 256⟩ : mat3 ℚ))
        ⟨1 / 256, 0, 0, 0, 1 / 256, 0, 0, 0, 1 / 256⟩ ≠ mat3.identity) ∧
    (mat4.Determinant
        (⟨1 / 64, 0, 0, 0, 0, 1 / 64, 0, 0, 0, 0, 1 / 64, 0, 0, 0, 0, 1 / 64⟩ : mat4 ℚ) ≠ 0 ∧
      mat4.mul
        (mat4.Inverse
          (⟨1 / 64, 0, 0, 0, 0, 1 / 64, 0, 0, 0, 0, 1 / 64, 0, 0, 0, 0, 1 / 64⟩ : mat4 ℚ))
        ⟨1 / 64, 0, 0, 0, 0, 1 / 64, 0, 0, 0, 0, 1 / 64, 0, 0, 0, 0, 1 / 64⟩
        ≠ mat4.identity) := by
  refine ⟨⟨?_, ?_⟩, ⟨?_, ?_⟩, ⟨?_, ?_⟩⟩
  · norm_num [mat2.Determinant]
  · rw [mat2_Inverse_of_CMP_true _ (by
      rw [CMP_zero_eq_true_iff]; norm_num [mat2.Determinant, FLT_EPSILON, abs_of_pos])]
    simp [mat2.default, mat2_mul_mk, mat2.identity]
  · norm_num [mat3_Determinant_mk, det3]
  · rw [mat3_Inverse_of_CMP_true _ (by
      rw [CMP_zero_eq_true_iff]; norm_num [mat3_Determinant_mk, det3, FLT_EPSILON, abs_of_pos])]
    simp [mat3.default, mat3_mul_mk, mat3.identity]
  · norm_num [mat4_Determinant_mk, det3]
  · rw [mat4_Inverse_of_CMP_true _ (by
      rw [CMP_zero_eq_true_iff]; norm_num [mat4_Determinant_mk, det3, FLT_EPSILON, abs_of_pos])]
    simp [mat4.default, mat4_mul_mk, mat4.identity]

/-- C1, amended: for every 2x2, 3x3 and 4x4 matrix whose determinant exceeds `FLT_EPSILON` in
absolute value (the matrices that pass the guard `CMP(det, 0)` of `Inverse`), `Inverse(M) * M` is
the identity matrix of that size, in exact arithmetic. -/
theorem C1_inverse_mul_of_det_gt_epsilon (a : mat2 K) (b : mat3 K) (c : mat4 K)
    (ha : FLT_EPSILON < |mat2.Determinant a|) (hb : FLT_EPSILON < |mat3.Determinant b|)
    (hc : FLT_EPSILON < |mat4.Determinant c|) :
    mat2.mul (mat2.Inverse a) a = mat2.identity ∧
    mat3.mul (mat3.Inverse b) b = mat3.identity ∧
    mat4.mul (mat4.Inverse c) c = mat4.identity :=
  ⟨mat2_Inverse_mul a ((CMP_zero_eq_false_iff _).2 ha),
   mat3_Inverse_mul b ((CMP_zero_eq_false_iff _).2 hb),
   mat4_Inverse_mul c ((CMP_zero_eq_false_iff _).2 hc)⟩

/-- C1, amended, at a 2x2 matrix of determinant 1, a 3x3 matrix of determinant 6 and a 4x4
matrix of determinant 29. -/
theorem C1_inverse_mul_of_det_gt_epsilon_witness :
    (FLT_EPSILON < |mat2.Determinant (⟨2, 1, 1, 1⟩ : mat2 ℚ)| ∧
      FLT_EPSILON < |mat3.Determinant (⟨1, 2, 0, 0, 2, 0, 0, 0, 3⟩ : mat3 ℚ)| ∧
      FLT_EPSILON <
        |mat4.Determinant (⟨1, 2, 3, 4, 0, 1, 5, 7, 2, 0, 1, 3, 1, 1, 0, 2⟩ : mat4 ℚ)|) ∧
    (mat2.mul (mat2.Inverse (⟨2, 1, 1, 1⟩ : mat2 ℚ)) ⟨2, 1, 1, 1⟩ = mat2.identity ∧
      mat3.mul (mat3.Inverse (⟨1, 2, 0, 0, 2, 0, 0, 0, 3⟩ : mat3 ℚ))
        ⟨1, 2, 0, 0, 2, 0, 0, 0, 3⟩ = mat3.identity ∧
      mat4.mul (mat4.Inverse (⟨1, 2, 3, 4, 0, 1, 5, 7, 2, 0, 1, 3, 1, 1, 0, 2⟩ : mat4 ℚ))
        ⟨1, 2, 3, 4, 0, 1, 5, 7, 2, 0, 1, 3, 1, 1, 0, 2⟩ = mat4.identity) :=
  have ha : FLT_EPSILON < |mat2.Determinant (⟨2, 1, 1, 1⟩ : mat2 ℚ)| := by
    norm_num [mat2.Determinant, FLT_EPSILON, abs_of_pos]
  have hb : FLT_EPSILON < |mat3.Determinant (⟨1, 2, 0, 0, 2, 0, 0, 0, 3⟩ : mat3 ℚ)| := by
    norm_num [mat3_Determinant_mk, det3, FLT_EPSILON, abs_of_pos]
  have hc : FLT_EPSILON <
      |mat4.Determinant (⟨1, 2, 3, 4, 0, 1, 5, 7, 2, 0, 1, 3, 1, 1, 0, 2⟩ : mat4 ℚ)| := by
    norm_num [mat4_Determinant_mk, det3, FLT_EPSILON, abs_of_pos]
  ⟨⟨ha, hb, hc⟩, C1_inverse_mul_of_det_gt_epsilon _ _ _ ha hb hc⟩


/-- C2: for every 2x2, 3x3 and 4x4 matrix whose determinant is not within epsilon of zero
(`CMP(Determinant(M), 0)` is false), `Inverse(M)` is `Adjugate(M)` scaled by
`1 / Determinant(M)`, and it is a two-sided inverse: `Inverse(M) * M = M * Inverse(M) = I`. -/
theorem C2_inverse_is_scaled_adjugate_two_sided (a : mat2 K) (b : mat3 K) (c : mat4 K)
    (ha : CMP (mat2.Determinant a) 0 = false) (hb : CMP (mat3.Determinant b) 0 = false)
    (hc : CMP (mat4.Determinant c) 0 = false) :
    (mat2.Inverse a = mat2.smul (mat2.Adjugate a) (1 / mat2.Determinant a) ∧
      mat2.mul (mat2.Inverse a) a = mat2.identity ∧
      mat2.mul a (mat2.Inverse a) = mat2.identity) ∧
    (mat3.Inverse b = mat3.smul (mat3.Adjugate b) (1 / mat3.Determinant b) ∧
      mat3.mul (mat3.Inverse b) b = mat3.identity ∧
      mat3.mul b (mat3.Inverse b) = mat3.identity) ∧
    (mat4.Inverse c = mat4.smul (mat4.Adjugate c) (1 / mat4.Determinant c) ∧
      mat4.mul (mat4.Inverse c) c = mat4.identity ∧
      mat4.mul c (mat4.Inverse c) = mat4.identity) :=
  ⟨⟨mat2_Inverse_of_CMP_false a ha, mat2_Inverse_mul a ha, mat2_mul_Inverse a ha⟩,
   ⟨mat3_Inverse_of_CMP_false b hb, mat3_Inverse_mul b hb, mat3_mul_Inverse b hb⟩,
   ⟨mat4_Inverse_of_CMP_false c hc, mat4_Inverse_mul c hc, mat4_mul_Inverse c hc⟩⟩

/-- C2 at three matrices of determinant 1, 29 and 29: the guard is false and the products with
the inverse are the identity. -/
theorem C2_inverse_is_scaled_adjugate_two_sided_witness :
    (CMP (mat2.Determinant (⟨2, 1, 1, 1⟩ : mat2 ℚ)) 0 = false ∧
      CMP (mat3.Determinant (⟨1, 2, 3, 0, 1, 5, 2, 0, 1⟩ : mat3 ℚ)) 0 = false ∧
      CMP (mat4.Determinant (⟨1, 2, 3, 4, 0, 1, 5, 7, 2, 0, 1, 3, 1, 1, 0, 2⟩ : mat4 ℚ)) 0 = false) ∧
    (mat2.mul (mat2.Inverse (⟨2, 1, 1, 1⟩ : mat2 ℚ)) ⟨2, 1, 1, 1⟩ = mat2.identity ∧
      mat2.mul (⟨2, 1, 1, 1⟩ : mat2 ℚ) (mat2.Inverse ⟨2, 1, 1, 1⟩) = mat2.identity) ∧
    (mat3.mul (mat3.Inverse (⟨1, 2, 3, 0, 1, 5, 2, 0, 1⟩ : mat3 ℚ)) ⟨1, 2, 3, 0, 1, 5, 2, 0, 1⟩ = mat3.identity ∧
      mat3.mul (⟨1, 2, 3, 0, 1, 5, 2, 0, 1⟩ : mat3 ℚ) (mat3.Inverse ⟨1, 2, 3, 0, 1, 5, 2, 0, 1⟩) = mat3.identity) ∧
    (mat4.mul (mat4.Inverse (⟨1, 2, 3, 4, 0, 1, 5, 7, 2, 0, 1, 3, 1, 1, 0, 2⟩ : mat4 ℚ))
        ⟨1, 2, 3, 4, 0, 1, 5, 7, 2, 0, 1, 3, 1, 1, 0, 2⟩ = mat4.identity ∧
      mat4.mul (⟨1, 2, 3, 4, 0, 1, 5, 7, 2, 0, 1, 3, 1, 1, 0, 2⟩ : mat4 ℚ)
        (mat4.Inverse ⟨1, 2, 3, 4, 0, 1, 5, 7, 2, 0, 1, 3, 1, 1, 0, 2⟩) = mat4.identity) :=
  have ha : CMP (mat2.Determinant (⟨2, 1, 1, 1⟩ : mat2 ℚ)) 0 = false := by
    rw [CMP_zero_eq_false_iff]; norm_num [mat2.Determinant, FLT_EPSILON, abs_of_pos]
  have hb : CMP (mat3.Determinant (⟨1, 2, 3, 0, 1, 5, 2, 0, 1⟩ : mat3 ℚ)) 0 = false := by
    rw [CMP_zero_eq_false_iff]; norm_num [mat3_Determinant_mk, det3, FLT_EPSILON, abs_of_pos]
  have hc : CMP (mat4.Determinant (⟨1, 2, 3, 4, 0, 1, 5, 7, 2, 0, 1, 3, 1, 1, 0, 2⟩ : mat4 ℚ)) 0 = false := by
    rw [CMP_zero_eq_false_iff]; norm_num [mat4_Determinant_mk, det3, FLT_EPSILON, abs_of_pos]
  have h := C2_inverse_is_scaled_adjugate_two_sided _ _ _ ha hb hc
  ⟨⟨ha, hb, hc⟩, h.1.2, h.2.1.2, h.2.2.2⟩

/-- C3: the closed-form `InverseExp` equals the general `Inverse` for every 2x2 and every 4x4
matrix, singular or not: the hand-expanded 4x4 determinant equals `Determinant(M)`, and
`InverseExp(M)` is the default matrix under the same guard and `Adjugate(M) * (1 / det)`
entry by entry otherwise. -/
theorem C3_inverseExp_eq_inverse (a : mat2 K) (c : mat4 K) :
    mat2.InverseExp a = mat2.Inverse a ∧
    mat4.detExp c = mat4.Determinant c ∧
    mat4.InverseExp c = mat4.Inverse c ∧
    mat2.InverseExp a =
      (if CMP (mat2.Determinant a) 0 then mat2.default
       else mat2.smul (mat2.Adjugate a) (1 / mat2.Determinant a)) ∧
    mat4.InverseExp c =
      (if CMP (mat4.Determinant c) 0 then mat4.default
       else mat4.smul (mat4.Adjugate c) (1 / mat4.Determinant c)) :=
  ⟨mat2_InverseExp_eq_Inverse a, mat4_detExp_eq_Determinant c, mat4_InverseExp_eq_Inverse c,
   by rw [mat2_InverseExp_eq_Inverse]; rfl, by rw [mat4_InverseExp_eq_Inverse]; rfl⟩

/-- C4: for every 2x2, 3x3 and 4x4 matrix whose determinant is zero, `Inverse(M)` is the zero
matrix (every entry 0); no error is signalled. -/
theorem C4_inverse_singular_is_zero (a : mat2 K) (b : mat3 K) (c : mat4 K)
    (ha : mat2.Determinant a = 0) (hb : mat3.Determinant b = 0) (hc : mat4.Determinant c = 0) :
    mat2.Inverse a = ⟨0, 0, 0, 0⟩ ∧
    mat3.Inverse b = ⟨0, 0, 0, 0, 0, 0, 0, 0, 0⟩ ∧
    mat4.Inverse c = ⟨0, 0, 0, 0, 0, 0, 0, 0, 0, 0, 0, 0, 0, 0, 0, 0⟩ := by
  have h0 : CMP (0 : K) 0 = true := by
    rw [CMP_zero_eq_true_iff, abs_zero]; exact FLT_EPSILON_pos.le
  refine ⟨?_, ?_, ?_⟩
  · rw [mat2_Inverse_of_CMP_true a (by rw [ha]; exact h0)]; rfl
  · rw [mat3_Inverse_of_CMP_true b (by rw [hb]; exact h0)]; rfl
  · rw [mat4_Inverse_of_CMP_true c (by rw [hc]; exact h0)]; rfl

/-- C4 at a 2x2 and a 3x3 matrix with two identical rows and at the all-zero 4x4 matrix. -/
theorem C4_inverse_singular_is_zero_witness :
    (mat2.Determinant (⟨1, 2, 1, 2⟩ : mat2 ℚ) = 0 ∧
      mat3.Determinant (⟨1, 2, 3, 1, 2, 3, 4, 5, 6⟩ : mat3 ℚ) = 0 ∧
      mat4.Determinant (⟨0, 0, 0, 0, 0, 0, 0, 0, 0, 0, 0, 0, 0, 0, 0, 0⟩ : mat4 ℚ) = 0) ∧
    (mat2.Inverse (⟨1, 2, 1, 2⟩ : mat2 ℚ) = ⟨0, 0, 0, 0⟩ ∧
      mat3.Inverse (⟨1, 2, 3, 1, 2, 3, 4, 5, 6⟩ : mat3 ℚ) = ⟨0, 0, 0, 0, 0, 0, 0, 0, 0⟩ ∧
      mat4.Inverse (⟨0, 0, 0, 0, 0, 0, 0, 0, 0, 0, 0, 0, 0, 0, 0, 0⟩ : mat4 ℚ) =
        ⟨0, 0, 0, 0, 0, 0, 0, 0, 0, 0, 0, 0, 0, 0, 0, 0⟩) :=
  have ha : mat2.Determinant (⟨1, 2, 1, 2⟩ : mat2 ℚ) = 0 := by norm_num [mat2.Determinant]
  have hb : mat3.Determinant (⟨1, 2, 3, 1, 2, 3, 4, 5, 6⟩ : mat3 ℚ) = 0 := by
    norm_num [mat3_Determinant_mk, det3]
  have hc : mat4.Determinant (⟨0, 0, 0, 0, 0, 0, 0, 0, 0, 0, 0, 0, 0, 0, 0, 0⟩ : mat4 ℚ) = 0 := by
    norm_num [mat4_Determinant_mk, det3]
  ⟨⟨ha, hb, hc⟩, C4_inverse_singular_is_zero _ _ _ ha hb hc⟩

/-- C7: `Transpose(Transpose(M))` equals `M` for every 2x2, 3x3 and 4x4 matrix. -/
theorem C7_transpose_transpose (a : mat2 K) (b : mat3 K) (c : mat4 K) :
    mat2.Transpose (mat2.Transpose a) = a ∧
    mat3.Transpose (mat3.Transpose b) = b ∧
    mat4.Transpose (mat4.Transpose c) = c :=
  ⟨rfl, rfl, rfl⟩

/-- C8: `Determinant(M)` is the mathematical determinant (the permutation-sum formula
`Matrix.det`) of a 2x2, 3x3 and 4x4 matrix; the 2x2 case is `_11 * _22 - _12 * _21`, and the
3x3 and 4x4 cases are the sum over `j` of `M[0][j] * Cofactor(M)[0][j]`. -/
theorem C8_determinant_eq_det (a : mat2 K) (b : mat3 K) (c : mat4 K) :
    mat2.Determinant a = a._11 * a._22 - a._12 * a._21 ∧
    mat2.Determinant a = (mat2.toMatrix a).det ∧
    mat3.Determinant b =
      ∑ j ∈ Finset.range 3, b.asArray j * (mat3.Cofactor b).asArray (mat3.index 0 j) ∧
    mat3.Determinant b = (mat3.toMatrix b).det ∧
    mat4.Determinant c =
      ∑ j ∈ Finset.range 4, c.asArray j * (mat4.Cofactor c).asArray (mat4.index 0 j) ∧
    mat4.Determinant c = (mat4.toMatrix c).det := by
  refine ⟨rfl, mat2_Determinant_eq_det a, ?_, mat3_Determinant_eq_det b, ?_,
    mat4_Determinant_eq_det c⟩
  · simp [mat3.Determinant, forLoop_three, Finset.sum_range_succ]
  · simp [mat4.Determinant, forLoop_four, Finset.sum_range_succ]

/-- C9: the determinant of the identity matrix is exactly 1 for the sizes 2x2, 3x3 and 4x4. -/
theorem C9_determinant_identity :
    mat2.Determinant (mat2.identity : mat2 K) = 1 ∧
    mat3.Determinant (mat3.identity : mat3 K) = 1 ∧
    mat4.Determinant (mat4.identity : mat4 K) = 1 := by
  refine ⟨?_, ?_, ?_⟩
  · simp [mat2.Determinant, mat2.identity]
  · simp [mat3.identity, mat3_Determinant_mk, det3]
  · simp [mat4.identity, mat4_Determinant_mk, det3]

end Claims

/-! ## The generic product -/

section Product

theorem loopN_succ {σ : Type} (n : Nat) (body : Int → σ → σ) (s : σ) :
    loopN (n + 1) body s = body (n : Int) (loopN n body s) :=
  rfl

/-- A loop of stores leaves a cell alone when no store addresses it. -/
theorem loopN_store_of_ne {α : Type} (m : Nat) (g : Int → Int) (v : Int → α) (o : Int → α) (x : Int)
    (h : ∀ j : Nat, j < m → g j ≠ x) :
    loopN m (fun j out => Function.update out (g j) (v j)) o x = o x := by
  induction m with
  | zero => rfl
  | succ m ih =>
    rw [loopN_succ]
    rw [Function.update_noteq (h m (Nat.lt_succ_self m)).symm]
    exact ih fun j hj => h j (Nat.lt_succ_of_lt hj)

/-- A loop of stores to pairwise distinct cells leaves in each cell the value stored there. -/
theorem loopN_store_at {α : Type} (m : Nat) (g : Int → Int) (v : Int → α) (o : Int → α) (j0 : Nat)
    (hj0 : j0 < m) (h : ∀ j : Nat, j0 < j → j < m → g j ≠ g j0) :
    loopN m (fun j out => Function.update out (g j) (v j)) o (g j0) = v j0 := by
  induction m with
  | zero => exact absurd hj0 (Nat.not_lt_zero _)
  | succ m ih =>
    rw [loopN_succ]
    rcases Nat.lt_succ_iff_lt_or_eq.1 hj0 with hlt | heq
    · rw [Function.update_noteq (h m hlt (Nat.lt_succ_self m)).symm]
      exact ih hlt fun j hj hjm => h j hj (Nat.lt_succ_of_lt hjm)
    · subst heq
      exact Function.update_same _ _ _

/-- The two outer loops of `Multiply` leave a cell alone when it is none of `c * i + j`. -/
theorem loopN_rows_of_ne {α : Type} (n m : Nat) (c : Int) (v : Int → Int → α) (o : Int → α) (x : Int)
    (h : ∀ i j : Nat, i < n → j < m → c * i + j ≠ x) :
    loopN n (fun i out => loopN m (fun j out => Function.update out (c * i + j) (v i j)) out)
      o x = o x := by
  induction n with
  | zero => rfl
  | succ n ih =>
    rw [loopN_succ]
    rw [loopN_store_of_ne m (fun j => c * (n : Int) + j) (fun j => v n j) _ x
      (fun j hj => h n j (Nat.lt_succ_self n) hj)]
    exact ih fun i j hi hj => h i j (Nat.lt_succ_of_lt hi) hj

/-- The two outer loops of `Multiply` leave `v i j` in cell `c * i + j` of a row-major buffer
with rows of length `c`. -/
theorem loopN_rows_at {α : Type} (n m : Nat) (c : Int) (v : Int → Int → α) (o : Int → α) (i0 j0 : Nat)
    (hi0 : i0 < n) (hj0 : j0 < m) (hm : (m : Int) ≤ c) :
    loopN n (fun i out => loopN m (fun j out => Function.update out (c * i + j) (v i j)) out)
      o (c * i0 + j0) = v i0 j0 := by
  induction n with
  | zero => exact absurd hi0 (Nat.not_lt_zero _)
  | succ n ih =>
    rw [loopN_succ]
    rcases Nat.lt_succ_iff_lt_or_eq.1 hi0 with hlt | heq
    · rw [loopN_store_of_ne m (fun j => c * (n : Int) + j) (fun j => v n j) _ (c * i0 + j0)]
      · exact ih hlt
      · intro j _ heq
        have h1 : (j0 : Int) < c := lt_of_lt_of_le (by exact_mod_cast hj0) hm
        have h2 : (i0 : Int) + 1 ≤ n := by exact_mod_cast hlt
        have h3 : (0 : Int) ≤ j := by exact_mod_cast Nat.zero_le j
        have h4 : (0 : Int) ≤ c := le_trans (by exact_mod_cast Nat.zero_le m) hm
        have h5 : c * ((i0 : Int) + 1) ≤ c * n := mul_le_mul_of_nonneg_left h2 h4
        have heq2 : c * (n : Int) + j = c * i0 + j0 := heq
        linarith
    · subst heq
      exact loopN_store_at m (fun j => c * (i0 : Int) + j) (fun j => v i0 j) _ j0 hj0
        (fun j hj _ heq => by
          have heq2 : c * (i0 : Int) + j = c * i0 + j0 := heq
          have : (j : Int) = j0 := by linarith
          exact absurd (by exact_mod_cast this) (Nat.ne_of_gt hj))

variable {K : Type} [LinearOrderedField K]

/-- The innermost loop of `Multiply` adds the partial sums to one cell of `out`. -/
theorem loopN_accumulate (n : Nat) (idx : Int) (f : Int → K) (o : Int → K) :
    loopN n (fun k out => Function.update out idx (out idx + f k)) o =
      Function.update o idx (o idx + ∑ k ∈ Finset.range n, f (k : Int)) := by
  induction n with
  | zero => simp [loopN]
  | succ n ih =>
    rw [loopN_succ, ih, Finset.sum_range_succ]
    simp [add_assoc]

/-- The generic `Multiply` fails exactly on a dimension mismatch. -/
theorem Multiply_fst (out matA matB : Int → K) (aRows aCols bRows bCols : Int) :
    ((Flat.Multiply out matA aRows aCols matB bRows bCols).1 = true ↔ aCols = bRows) ∧
    (aCols ≠ bRows → (Flat.Multiply out matA aRows aCols matB bRows bCols).1 = false) := by
  unfold Flat.Multiply
  by_cases h : aCols = bRows
  · simp [h]
  · simp [h]

/-- The loops of a successful `Multiply`, with the innermost sum evaluated. -/
theorem Multiply_snd_eq (out matA matB : Int → K) (aRows aCols bCols : Int) :
    (Flat.Multiply out matA aRows aCols matB aCols bCols).2 =
      loopN aRows.toNat (fun i out =>
        loopN bCols.toNat (fun j out =>
          Function.update out (bCols * i + j)
            (∑ k ∈ Finset.range aCols.toNat,
              matA (aCols * i + (k : Int)) * matB (bCols * (k : Int) + j))) out) out := by
  simp [Flat.Multiply, forLoop, loopN_accumulate]


/-- C5: the generic `Multiply` returns false if and only if `aCols != bRows`, and when it
returns false the output buffer is left completely unchanged. -/
theorem C5_multiply_fails_iff_mismatch (out matA matB : Int → K)
    (aRows aCols bRows bCols : Int) :
    ((Flat.Multiply out matA aRows aCols matB bRows bCols).1 = false ↔ aCols ≠ bRows) ∧
    ((Flat.Multiply out matA aRows aCols matB bRows bCols).1 = false →
      (Flat.Multiply out matA aRows aCols matB bRows bCols).2 = out) := by
  unfold Flat.Multiply
  by_cases h : aCols = bRows
  · simp [h]
  · simp [h]

/-- C5 at a 2x3 by 4x2 product: it fails and the output buffer is the one passed in. -/
theorem C5_multiply_fails_iff_mismatch_witness :
    (Flat.Multiply (fun _ => (7 : ℚ)) (fun i => (i : ℚ)) 2 3 (fun i => (i : ℚ) + 1) 4 2).1
      = false ∧
    (Flat.Multiply (fun _ => (7 : ℚ)) (fun i => (i : ℚ)) 2 3 (fun i => (i : ℚ) + 1) 4 2).2
      = fun _ => (7 : ℚ) :=
  have h := C5_multiply_fails_iff_mismatch (fun _ => (7 : ℚ)) (fun i => (i : ℚ))
    (fun i => (i : ℚ) + 1) 2 3 4 2
  ⟨h.1.2 (by decide), h.2 (h.1.2 (by decide))⟩

/-- C6: a successful generic `Multiply` sets `out[bCols * i + j]` to the sum over `k < aCols` of
`A[aCols * i + k] * B[bCols * k + j]` for every `i < aRows` and `j < bCols`, whatever `out` held
before, and it writes no index of `out` at or beyond `aRows * bCols` (nor a negative one). -/
theorem C6_multiply_is_matrix_product (out matA matB : Int → K)
    (aRows aCols bRows bCols : Int)
    (hok : (Flat.Multiply out matA aRows aCols matB bRows bCols).1 = true) :
    (∀ i j : Int, 0 ≤ i → i < aRows → 0 ≤ j → j < bCols →
      (Flat.Multiply out matA aRows aCols matB bRows bCols).2 (bCols * i + j) =
        ∑ k ∈ Finset.range aCols.toNat,
          matA (aCols * i + (k : Int)) * matB (bCols * (k : Int) + j)) ∧
    (∀ n : Int, aRows * bCols ≤ n →
      (Flat.Multiply out matA aRows aCols matB bRows bCols).2 n = out n) ∧
    (∀ n : Int, n < 0 →
      (Flat.Multiply out matA aRows aCols matB bRows bCols).2 n = out n) := by
  have hdim : aCols = bRows := by
    by_contra hne
    have := (Multiply_fst out matA matB aRows aCols bRows bCols).2 hne
    rw [this] at hok
    exact Bool.noConfusion hok
  subst hdim
  rw [Multiply_snd_eq]
  refine ⟨?_, ?_, ?_⟩
  · intro i j hi0 hi hj0 hj
    have hi' : ((i.toNat : Nat) : Int) = i := Int.toNat_of_nonneg hi0
    have hj' : ((j.toNat : Nat) : Int) = j := Int.toNat_of_nonneg hj0
    have h := loopN_rows_at aRows.toNat bCols.toNat bCols
      (fun i j => ∑ k ∈ Finset.range aCols.toNat,
        matA (aCols * i + (k : Int)) * matB (bCols * (k : Int) + j)) out i.toNat j.toNat
      (by omega) (by omega) (by omega)
    rw [hi', hj'] at h
    exact h
  · intro n hn
    apply loopN_rows_of_ne
    intro i j hi hj heq
    have h1 : (i : Int) + 1 ≤ aRows := by omega
    have h2 : (j : Int) < bCols := by omega
    have h3 : (0 : Int) ≤ j := by omega
    have h4 : (i + 1 : Int) * bCols ≤ aRows * bCols :=
      mul_le_mul_of_nonneg_right h1 (by omega)
    linarith
  · intro n hn
    apply loopN_rows_of_ne
    intro i j hi hj heq
    have h2 : (j : Int) < bCols := by omega
    have h3 : (0 : Int) ≤ j := by omega
    have h4 : (0 : Int) ≤ bCols * i := mul_nonneg (by omega) (by omega)
    linarith


/-- C6 at a 2x3 by 3x2 product of rational buffers: the call succeeds, cell `2 * 1 + 0` holds
the sum of the three products of row 1 and column 0, and cell 4 keeps its value. -/
theorem C6_multiply_is_matrix_product_witness :
    (Flat.Multiply (fun _ => (7 : ℚ)) (fun i => (i : ℚ)) 2 3 (fun i => (i : ℚ) + 1) 3 2).1
      = true ∧
    (Flat.Multiply (fun _ => (7 : ℚ)) (fun i => (i : ℚ)) 2 3 (fun i => (i : ℚ) + 1) 3 2).2
      (2 * 1 + 0) = 3 * 1 + 4 * 3 + 5 * 5 ∧
    (Flat.Multiply (fun _ => (7 : ℚ)) (fun i => (i : ℚ)) 2 3 (fun i => (i : ℚ) + 1) 3 2).2 4
      = 7 :=
  have hok : (Flat.Multiply (fun _ => (7 : ℚ)) (fun i => (i : ℚ)) 2 3
      (fun i => (i : ℚ) + 1) 3 2).1 = true := rfl
  have h := C6_multiply_is_matrix_product (fun _ => (7 : ℚ)) (fun i => (i : ℚ))
    (fun i => (i : ℚ) + 1) 2 3 3 2 hok
  ⟨hok,
   (h.1 1 0 (by decide) (by decide) (by decide) (by decide)).trans
     (by norm_num [Finset.sum_range_succ, show Int.toNat 3 = 3 from rfl]),
   h.2.1 4 (by decide)⟩

/-- C10: `GetTranslation(Translation(x, y, z))` is `(x, y, z)`; the `vec3` overload of
`Translation` agrees with the three-float overload; and the generic `Multiply` of the 1x4 row
vector `(px, py, pz, 1)` by `Translation(x, y, z)` succeeds with the result
`(px + x, py + y, pz + z, 1)`, so that `(0, 0, 0, 1)` is mapped to `(x, y, z, 1)`. -/
theorem C10_translation (x y z px py pz : K) (out : Int → K) :
    GetTranslation (Translation x y z) = ⟨x, y, z⟩ ∧
    Translation_vec3 ⟨x, y, z⟩ = Translation x y z ∧
    Flat.Multiply out (rowVec4 0 0 0 1) 1 4 (Translation x y z).asArray 4 4 =
      (true, Function.update (Function.update (Function.update (Function.update out
        0 x) 1 y) 2 z) 3 1) ∧
    Flat.Multiply out (rowVec4 px py pz 1) 1 4 (Translation x y z).asArray 4 4 =
      (true, Function.update (Function.update (Function.update (Function.update out
        0 (px + x)) 1 (py + y)) 2 (pz + z)) 3 1) := by
  refine ⟨rfl, rfl, ?_, ?_⟩
  · simp [Flat.Multiply, forLoop_one, forLoop_four, rowVec4, Translation, mat4.asArray]
  · simp [Flat.Multiply, forLoop_one, forLoop_four, rowVec4, Translation, mat4.asArray]

end Product

/-! ## Transform builders -/

section Transforms

variable {K : Type} [LinearOrderedField K]

theorem CMP_self (x : K) : CMP x x = true := by
  have h : (0 : K) ≤ FLT_EPSILON * max 1 (max |x| |x|) :=
    mul_nonneg FLT_EPSILON_pos.le (le_trans zero_le_one (le_max_left _ _))
  simpa [CMP] using h

/-- C11: `GetScale(Scale(x, y, z))` is `(x, y, z)`, the `vec3` overload of `Scale` agrees with
the three-float overload, and `Scale(x, y, z)` is the diagonal matrix `diag(x, y, z, 1)`. -/
theorem C11_scale (x y z : K) :
    GetScale (Scale x y z) = ⟨x, y, z⟩ ∧
    Scale_vec3 ⟨x, y, z⟩ = Scale x y z ∧
    Scale x y z = ⟨x, 0, 0, 0, 0, y, 0, 0, 0, 0, z, 0, 0, 0, 0, 1⟩ ∧
    mat4.toMatrix (Scale x y z) = Matrix.diagonal ![x, y, z, 1] := by
  refine ⟨rfl, rfl, rfl, ?_⟩
  ext i j
  fin_cases i <;> fin_cases j <;> rfl

/-- C13: `Rotation(pitch, yaw, roll)` is `ZRotation(roll) * XRotation(pitch) * YRotation(yaw)`,
`Rotation3x3` is the same product of the 3x3 builders, the upper-left 3x3 block of `Rotation`
is `Rotation3x3` entry by entry, and the fourth row and column of `Rotation` are
`(0, 0, 0, 1)`. -/
theorem C13_rotation (E : MathEnv K) (pitch yaw roll : K) :
    Rotation E pitch yaw roll =
      mat4.mul (mat4.mul (ZRotation E roll) (XRotation E pitch)) (YRotation E yaw) ∧
    Rotation3x3 E pitch yaw roll =
      mat3.mul (mat3.mul (ZRotation3x3 E roll) (XRotation3x3 E pitch)) (YRotation3x3 E yaw) ∧
    Rotation E pitch yaw roll =
      ⟨(Rotation3x3 E pitch yaw roll)._11, (Rotation3x3 E pitch yaw roll)._12,
        (Rotation3x3 E pitch yaw roll)._13, 0,
       (Rotation3x3 E pitch yaw roll)._21, (Rotation3x3 E pitch yaw roll)._22,
        (Rotation3x3 E pitch yaw roll)._23, 0,
       (Rotation3x3 E pitch yaw roll)._31, (Rotation3x3 E pitch yaw roll)._32,
        (Rotation3x3 E pitch yaw roll)._33, 0,
       0, 0, 0, 1⟩ := by
  refine ⟨rfl, rfl, ?_⟩
  simp only [Rotation, Rotation3x3, ZRotation, XRotation, YRotation, ZRotation3x3, XRotation3x3,
    YRotation3x3, mat4_mul_mk, mat3_mul_mk, mat4.mk.injEq]
  refine ⟨?_, ?_, ?_, ?_, ?_, ?_, ?_, ?_, ?_, ?_, ?_, ?_, ?_, ?_, ?_, ?_⟩ <;> ring

theorem MagnitudeSq_mk (x y z : K) : MagnitudeSq (⟨x, y, z⟩ : vec3 K) = x * x + y * y + z * z :=
  rfl

/-- C12: with `cos(90°) = 0` and `sin(90°) = 1`, the axis-angle matrix of the unit x axis and 90
degrees has first row `(1, 0, 0)` and second row `(0, 0, 1)`; the generic `Multiply` of the
row vector `(0, 1, 0)` by it gives `(0, 0, 1)`, and of it by the column vector `(0, 1, 0)`
gives `(0, 0, -1)`. -/
theorem C12_axisAngle_unitX_90 (E : MathEnv K) (out : Int → K)
    (hc : E.cosf (E.DEG2RAD 90) = 0) (hs : E.sinf (E.DEG2RAD 90) = 1) :
    AxisAngle3x3 E ⟨1, 0, 0⟩ 90 = ⟨1, 0, 0, 0, 0, 1, 0, -1, 0⟩ ∧
    AxisAngle E ⟨1, 0, 0⟩ 90 = ⟨1, 0, 0, 0, 0, 0, 1, 0, 0, -1, 0, 0, 0, 0, 0, 1⟩ ∧
    Flat.Multiply out (vec3Buf 0 1 0) 1 3 (AxisAngle3x3 E ⟨1, 0, 0⟩ 90).asArray 3 3 =
      (true, Function.update (Function.update (Function.update out 0 0) 1 0) 2 1) ∧
    Flat.Multiply out (AxisAngle3x3 E ⟨1, 0, 0⟩ 90).asArray 3 3 (vec3Buf 0 1 0) 3 1 =
      (true, Function.update (Function.update (Function.update out 0 0) 1 0) 2 (-1)) ∧
    Flat.Multiply out (rowVec4 0 1 0 1) 1 4 (AxisAngle E ⟨1, 0, 0⟩ 90).asArray 4 4 =
      (true, Function.update (Function.update (Function.update (Function.update out
        0 0) 1 0) 2 1) 3 1) := by
  have h1 : CMP (1 : K) 1 = true := CMP_self 1
  have h3 : AxisAngle3x3 E ⟨1, 0, 0⟩ 90 = ⟨1, 0, 0, 0, 0, 1, 0, -1, 0⟩ := by
    simp [AxisAngle3x3, MagnitudeSq_mk, h1, hc, hs]
  have h4 : AxisAngle E ⟨1, 0, 0⟩ 90 = ⟨1, 0, 0, 0, 0, 0, 1, 0, 0, -1, 0, 0, 0, 0, 0, 1⟩ := by
    simp [AxisAngle, MagnitudeSq_mk, h1, hc, hs]
  refine ⟨h3, h4, ?_, ?_, ?_⟩
  · rw [h3]
    simp [Flat.Multiply, forLoop_one, forLoop_three, vec3Buf, mat3.asArray]
  · rw [h3]
    simp [Flat.Multiply, forLoop_one, forLoop_three, vec3Buf, mat3.asArray]
  · rw [h4]
    simp [Flat.Multiply, forLoop_one, forLoop_four, rowVec4, mat4.asArray]

/-- C12 over the real numbers, with the real cosine and sine and `DEG2RAD(x) = x * (π / 180)`:
the two hypotheses hold and the matrix is as stated. -/
theorem C12_axisAngle_unitX_90_witness :
    (Real.cos ((90 : ℝ) * (Real.pi / 180)) = 0 ∧ Real.sin ((90 : ℝ) * (Real.pi / 180)) = 1) ∧
    AxisAngle3x3 (⟨Real.cos, Real.sin, Real.sqrt, fun x => x * (Real.pi / 180)⟩ : MathEnv ℝ)
      ⟨1, 0, 0⟩ 90 = ⟨1, 0, 0, 0, 0, 1, 0, -1, 0⟩ :=
  have h90 : (90 : ℝ) * (Real.pi / 180) = Real.pi / 2 := by ring
  have hc : Real.cos ((90 : ℝ) * (Real.pi / 180)) = 0 := by rw [h90, Real.cos_pi_div_two]
  have hs : Real.sin ((90 : ℝ) * (Real.pi / 180)) = 1 := by rw [h90, Real.sin_pi_div_two]
  ⟨⟨hc, hs⟩,
   (C12_axisAngle_unitX_90
    (⟨Real.cos, Real.sin, Real.sqrt, fun x => x * (Real.pi / 180)⟩ : MathEnv ℝ)
    (fun _ => 0) hc hs).1⟩

end Transforms

section AxisAngleClaims

variable {K : Type} [LinearOrderedField K]

/-- C20: for an axis of exactly unit length and any angle, with `cos² + sin² = 1`, the matrix
`R = AxisAngle3x3(axis, angle)` is orthogonal: `R * Transpose(R)` and `Transpose(R) * R` are
the 3x3 identity. -/
theorem C20_axisAngle3x3_orthogonal (E : MathEnv K) (axis : vec3 K) (angle : K)
    (hu : axis.x ^ 2 + axis.y ^ 2 + axis.z ^ 2 = 1)
    (hcs : E.cosf (E.DEG2RAD angle) ^ 2 + E.sinf (E.DEG2RAD angle) ^ 2 = 1) :
    mat3.mul (AxisAngle3x3 E axis angle) (mat3.Transpose (AxisAngle3x3 E axis angle)) =
      mat3.identity ∧
    mat3.mul (mat3.Transpose (AxisAngle3x3 E axis angle)) (AxisAngle3x3 E axis angle) =
      mat3.identity := by
  obtain ⟨x, y, z⟩ := axis
  have hu' : x * x + y * y + z * z = 1 := by simpa [sq] using hu
  have h1 : CMP (1 : K) 1 = true := CMP_self 1
  have hR : AxisAngle3x3 E ⟨x, y, z⟩ angle =
      ⟨(1 - E.cosf (E.DEG2RAD angle)) * (x * x) + E.cosf (E.DEG2RAD angle),
       (1 - E.cosf (E.DEG2RAD angle)) * x * y + E.sinf (E.DEG2RAD angle) * z,
       (1 - E.cosf (E.DEG2RAD angle)) * x * z - E.sinf (E.DEG2RAD angle) * y,
       (1 - E.cosf (E.DEG2RAD angle)) * x * y - E.sinf (E.DEG2RAD angle) * z,
       (1 - E.cosf (E.DEG2RAD angle)) * (y * y) + E.cosf (E.DEG2RAD angle),
       (1 - E.cosf (E.DEG2RAD angle)) * y * z + E.sinf (E.DEG2RAD angle) * x,
       (1 - E.cosf (E.DEG2RAD angle)) * x * z + E.sinf (E.DEG2RAD angle) * y,
       (1 - E.cosf (E.DEG2RAD angle)) * y * z - E.sinf (E.DEG2RAD angle) * x,
       (1 - E.cosf (E.DEG2RAD angle)) * (z * z) + E.cosf (E.DEG2RAD angle)⟩ := by
    simp only [AxisAngle3x3, MagnitudeSq_mk, hu', h1, Bool.not_true, Bool.false_eq_true,
      if_false]
  rw [hR]
  generalize E.cosf (E.DEG2RAD angle) = c at hcs
  generalize E.sinf (E.DEG2RAD angle) = s at hcs
  simp only [mat3_Transpose_mk, mat3_mul_mk, mat3.identity, mat3.mk.injEq]
  refine ⟨⟨?_, ?_, ?_, ?_, ?_, ?_, ?_, ?_, ?_⟩, ⟨?_, ?_, ?_, ?_, ?_, ?_, ?_, ?_, ?_⟩⟩
  · linear_combination (s ^ 2 + x * x * (1 - c) ^ 2) * hu' + (1 - x * x) * hcs
  · linear_combination (x * y * (1 - c) ^ 2) * hu' + (-(x * y)) * hcs
  · linear_combination (x * z * (1 - c) ^ 2) * hu' + (-(x * z)) * hcs
  · linear_combination (y * x * (1 - c) ^ 2) * hu' + (-(y * x)) * hcs
  · linear_combination (s ^ 2 + y * y * (1 - c) ^ 2) * hu' + (1 - y * y) * hcs
  · linear_combination (y * z * (1 - c) ^ 2) * hu' + (-(y * z)) * hcs
  · linear_combination (z * x * (1 - c) ^ 2) * hu' + (-(z * x)) * hcs
  · linear_combination (z * y * (1 - c) ^ 2) * hu' + (-(z * y)) * hcs
  · linear_combination (s ^ 2 + z * z * (1 - c) ^ 2) * hu' + (1 - z * z) * hcs
  · linear_combination (s ^ 2 + x * x * (1 - c) ^ 2) * hu' + (1 - x * x) * hcs
  · linear_combination (x * y * (1 - c) ^ 2) * hu' + (-(x * y)) * hcs
  · linear_combination (x * z * (1 - c) ^ 2) * hu' + (-(x * z)) * hcs
  · linear_combination (y * x * (1 - c) ^ 2) * hu' + (-(y * x)) * hcs
  · linear_combination (s ^ 2 + y * y * (1 - c) ^ 2) * hu' + (1 - y * y) * hcs
  · linear_combination (y * z * (1 - c) ^ 2) * hu' + (-(y * z)) * hcs
  · linear_combination (z * x * (1 - c) ^ 2) * hu' + (-(z * x)) * hcs
  · linear_combination (z * y * (1 - c) ^ 2) * hu' + (-(z * y)) * hcs
  · linear_combination (s ^ 2 + z * z * (1 - c) ^ 2) * hu' + (1 - z * z) * hcs

/-- C20 over the real numbers, for the unit axis `(3/5, 4/5, 0)` and 30 degrees. -/
theorem C20_axisAngle3x3_orthogonal_witness :
    ((3 / 5 : ℝ) ^ 2 + (4 / 5) ^ 2 + 0 ^ 2 = 1 ∧
      Real.cos ((30 : ℝ) * (Real.pi / 180)) ^ 2 + Real.sin ((30 : ℝ) * (Real.pi / 180)) ^ 2
        = 1) ∧
    mat3.mul
      (AxisAngle3x3 (⟨Real.cos, Real.sin, Real.sqrt, fun x => x * (Real.pi / 180)⟩ : MathEnv ℝ)
        ⟨3 / 5, 4 / 5, 0⟩ 30)
      (mat3.Transpose
        (AxisAngle3x3 (⟨Real.cos, Real.sin, Real.sqrt, fun x => x * (Real.pi / 180)⟩ : MathEnv ℝ)
          ⟨3 / 5, 4 / 5, 0⟩ 30)) = mat3.identity :=
  have hu : (3 / 5 : ℝ) ^ 2 + (4 / 5) ^ 2 + 0 ^ 2 = 1 := by norm_num
  have hcs : Real.cos ((30 : ℝ) * (Real.pi / 180)) ^ 2
      + Real.sin ((30 : ℝ) * (Real.pi / 180)) ^ 2 = 1 := Real.cos_sq_add_sin_sq _
  ⟨⟨hu, hcs⟩,
   (C20_axisAngle3x3_orthogonal
    (⟨Real.cos, Real.sin, Real.sqrt, fun x => x * (Real.pi / 180)⟩ : MathEnv ℝ)
    ⟨3 / 5, 4 / 5, 0⟩ 30 hu hcs).1⟩

end AxisAngleClaims

/-! ## The singularity guard -/

section Guard

variable {K : Type} [LinearOrderedField K]

end Guard

/-! ## Cut, Transpose and Cofactor on general shapes -/

section CutClaims

variable {K : Type} [LinearOrderedField K]

theorem mat3_Cut_mk (a11 a12 a13 a21 a22 a23 a31 a32 a33 : K) :
    let M : mat3 K := ⟨a11, a12, a13, a21, a22, a23, a31, a32, a33⟩
    mat3.Cut M 0 0 = ⟨a22, a23, a32, a33⟩ ∧ mat3.Cut M 0 1 = ⟨a21, a23, a31, a33⟩ ∧
      mat3.Cut M 0 2 = ⟨a21, a22, a31, a32⟩ ∧ mat3.Cut M 1 0 = ⟨a12, a13, a32, a33⟩ ∧
      mat3.Cut M 1 1 = ⟨a11, a13, a31, a33⟩ ∧ mat3.Cut M 1 2 = ⟨a11, a12, a31, a32⟩ ∧
      mat3.Cut M 2 0 = ⟨a12, a13, a22, a23⟩ ∧ mat3.Cut M 2 1 = ⟨a11, a13, a21, a23⟩ ∧
      mat3.Cut M 2 2 = ⟨a11, a12, a21, a22⟩ :=
  ⟨rfl, rfl, rfl, rfl, rfl, rfl, rfl, rfl, rfl⟩

theorem mat4_Cut_entry (M : mat4 K) (row col i j : Int) (hrow : 0 ≤ row ∧ row < 4)
    (hcol : 0 ≤ col ∧ col < 4) (hi : 0 ≤ i ∧ i < 3) (hj : 0 ≤ j ∧ j < 3) :
    (mat4.Cut M row col).asArray (3 * i + j) =
      M.asArray (4 * (i + if row ≤ i then 1 else 0) + (j + if col ≤ j then 1 else 0)) := by
  obtain ⟨a11, a12, a13, a14, a21, a22, a23, a24, a31, a32, a33, a34, a41, a42, a43, a44⟩ := M
  obtain ⟨hr0, hr1⟩ := hrow
  obtain ⟨hc0, hc1⟩ := hcol
  obtain ⟨hi0, hi1⟩ := hi
  obtain ⟨hj0, hj1⟩ := hj
  interval_cases row <;> interval_cases col <;> interval_cases i <;> interval_cases j <;>
    simp [mat4_Cut_mk, mat3.asArray, mat4.asArray]

theorem mat3_Cut_entry (M : mat3 K) (row col i j : Int) (hrow : 0 ≤ row ∧ row < 3)
    (hcol : 0 ≤ col ∧ col < 3) (hi : 0 ≤ i ∧ i < 2) (hj : 0 ≤ j ∧ j < 2) :
    (mat3.Cut M row col).asArray (2 * i + j) =
      M.asArray (3 * (i + if row ≤ i then 1 else 0) + (j + if col ≤ j then 1 else 0)) := by
  obtain ⟨a11, a12, a13, a21, a22, a23, a31, a32, a33⟩ := M
  obtain ⟨hr0, hr1⟩ := hrow
  obtain ⟨hc0, hc1⟩ := hcol
  obtain ⟨hi0, hi1⟩ := hi
  obtain ⟨hj0, hj1⟩ := hj
  interval_cases row <;> interval_cases col <;> interval_cases i <;> interval_cases j <;>
    simp [mat3_Cut_mk, mat2.asArray, mat3.asArray]

theorem mat4_Cut_loop_index (M : mat4 K) (row col : Int) (buf : Int → K)
    (hrow : 0 ≤ row ∧ row < 4) (hcol : 0 ≤ col ∧ col < 4) :
    (mat4.Cut.loop M row col buf).2 = 9 := by
  obtain ⟨hr0, hr1⟩ := hrow
  obtain ⟨hc0, hc1⟩ := hcol
  interval_cases row <;> interval_cases col <;> rfl

theorem mat3_Cut_loop_index (M : mat3 K) (row col : Int) (buf : Int → K)
    (hrow : 0 ≤ row ∧ row < 3) (hcol : 0 ≤ col ∧ col < 3) :
    (mat3.Cut.loop M row col buf).2 = 4 := by
  obtain ⟨hr0, hr1⟩ := hrow
  obtain ⟨hc0, hc1⟩ := hcol
  interval_cases row <;> interval_cases col <;> rfl

theorem mat4_Cut_loop_outside (M : mat4 K) (row col : Int) (buf : Int → K)
    (hrow : 0 ≤ row ∧ row < 4) (hcol : 0 ≤ col ∧ col < 4) (n : Int) (hn : n < 0 ∨ 9 ≤ n) :
    (mat4.Cut.loop M row col buf).1 n = buf n := by
  obtain ⟨hr0, hr1⟩ := hrow
  obtain ⟨hc0, hc1⟩ := hcol
  have h0 : n ≠ 0 := by omega
  have h1 : n ≠ 1 := by omega
  have h2 : n ≠ 2 := by omega
  have h3 : n ≠ 3 := by omega
  have h4 : n ≠ 4 := by omega
  have h5 : n ≠ 5 := by omega
  have h6 : n ≠ 6 := by omega
  have h7 : n ≠ 7 := by omega
  have h8 : n ≠ 8 := by omega
  interval_cases row <;> interval_cases col <;>
    simp [mat4.Cut.loop, forLoop_four, Function.update_apply, h0, h1, h2, h3, h4, h5, h6, h7, h8]

theorem mat3_Cut_loop_outside (M : mat3 K) (row col : Int) (buf : Int → K)
    (hrow : 0 ≤ row ∧ row < 3) (hcol : 0 ≤ col ∧ col < 3) (n : Int) (hn : n < 0 ∨ 4 ≤ n) :
    (mat3.Cut.loop M row col buf).1 n = buf n := by
  obtain ⟨hr0, hr1⟩ := hrow
  obtain ⟨hc0, hc1⟩ := hcol
  have h0 : n ≠ 0 := by omega
  have h1 : n ≠ 1 := by omega
  have h2 : n ≠ 2 := by omega
  have h3 : n ≠ 3 := by omega
  interval_cases row <;> interval_cases col <;>
    simp [mat3.Cut.loop, forLoop_three, Function.update_apply, h0, h1, h2, h3]

end CutClaims

section TransposeClaims

theorem loopN_append {α : Type} (n : Nat) (f : Int → α) :
    loopN n (fun i acc => acc ++ [f i]) [] = (List.range n).map (fun i : Nat => f (i : Int)) := by
  induction n with
  | zero => rfl
  | succ n ih => rw [loopN_succ, ih, List.range_succ, List.map_append]; rfl

theorem Transpose_accesses_eq (srcRows srcCols : Int) :
    Flat.Transpose.accesses srcRows srcCols =
      (List.range (srcRows * srcCols).toNat).map (fun i : Nat =>
        ((i : Int), srcCols * Int.tmod (i : Int) srcRows + Int.tdiv (i : Int) srcRows)) :=
  loopN_append _ _

/-- Quotient and remainder of `R * j + i` by `R`, for `0 ≤ i < R`, with truncating division. -/
theorem tdiv_tmod_row_major (R i j : Int) (hi0 : 0 ≤ i) (hi : i < R) (hj0 : 0 ≤ j) :
    Int.tdiv (R * j + i) R = j ∧ Int.tmod (R * j + i) R = i := by
  have hR : 0 < R := lt_of_le_of_lt hi0 hi
  have hn : 0 ≤ R * j + i := add_nonneg (mul_nonneg hR.le hj0) hi0
  rw [Int.tdiv_eq_ediv hn hR.le, Int.tmod_eq_emod hn hR.le]
  exact (Int.ediv_emod_unique hR).2 ⟨by ring, hi0, hi⟩

variable {K : Type}

/-- The generic `Transpose` as a loop of stores, one per index `i`. -/
theorem Transpose_eq_loopN (srcMat dstMat : Int → K) (srcRows srcCols : Int) :
    Flat.Transpose srcMat dstMat srcRows srcCols =
      loopN (srcRows * srcCols).toNat (fun i out => Function.update out ((fun i => i) i)
        ((fun i => srcMat (srcCols * Int.tmod i srcRows + Int.tdiv i srcRows)) i)) dstMat :=
  rfl

theorem Transpose_apply (srcMat dstMat : Int → K) (srcRows srcCols i j : Int)
    (hi0 : 0 ≤ i) (hi : i < srcRows) (hj0 : 0 ≤ j) (hj : j < srcCols) :
    Flat.Transpose srcMat dstMat srcRows srcCols (srcRows * j + i) = srcMat (srcCols * i + j) := by
  have hR : 0 < srcRows := lt_of_le_of_lt hi0 hi
  have hn0 : 0 ≤ srcRows * j + i := add_nonneg (mul_nonneg hR.le hj0) hi0
  have hlt : srcRows * j + i < srcRows * srcCols := by
    have h1 : srcRows * (j + 1) ≤ srcRows * srcCols :=
      mul_le_mul_of_nonneg_left (by omega) hR.le
    linarith
  obtain ⟨hd, hm⟩ := tdiv_tmod_row_major srcRows i j hi0 hi hj0
  have hcast : (((srcRows * j + i).toNat : Nat) : Int) = srcRows * j + i :=
    Int.toNat_of_nonneg hn0
  have h := loopN_store_at (srcRows * srcCols).toNat (fun i => i)
    (fun i => srcMat (srcCols * Int.tmod i srcRows + Int.tdiv i srcRows)) dstMat
    (srcRows * j + i).toNat
    (by
      generalize srcRows * srcCols = P at hlt
      generalize srcRows * j + i = Q at hlt hn0
      omega)
    (fun k hk _ heq => by
      have heq2 : (k : Int) = (((srcRows * j + i).toNat : Nat) : Int) := heq
      exact absurd (by exact_mod_cast heq2) (Nat.ne_of_gt hk))
  rw [Transpose_eq_loopN]
  simp only [hcast, hd, hm] at h
  exact h

theorem Transpose_outside (srcMat dstMat : Int → K) (srcRows srcCols n : Int)
    (hn : n < 0 ∨ srcRows * srcCols ≤ n) :
    Flat.Transpose srcMat dstMat srcRows srcCols n = dstMat n := by
  rw [Transpose_eq_loopN]
  apply loopN_store_of_ne
  intro k hk heq
  have heq2 : (k : Int) = n := heq
  generalize srcRows * srcCols = P at hn hk
  omega

theorem Transpose_reads_in_range (srcRows srcCols : Int) (hR : 1 ≤ srcRows) (hC : 1 ≤ srcCols)
    (p : Int × Int) (hp : p ∈ Flat.Transpose.accesses srcRows srcCols) :
    0 ≤ p.2 ∧ p.2 < srcRows * srcCols := by
  rw [Transpose_accesses_eq, List.mem_map] at hp
  obtain ⟨k, hk, rfl⟩ := hp
  rw [List.mem_range] at hk
  have hk0 : (0 : Int) ≤ k := by exact_mod_cast Nat.zero_le k
  have hkP : (k : Int) < srcCols * srcRows := by
    rw [mul_comm]
    generalize srcRows * srcCols = P at hk
    omega
  have hR0 : (0 : Int) < srcRows := by omega
  rw [Int.tdiv_eq_ediv hk0 hR0.le, Int.tmod_eq_emod hk0 hR0.le]
  have h1 : (0 : Int) ≤ (k : Int) % srcRows := Int.emod_nonneg _ (by omega)
  have h2 : (k : Int) % srcRows < srcRows := Int.emod_lt_of_pos _ hR0
  have h3 : (0 : Int) ≤ (k : Int) / srcRows := Int.ediv_nonneg hk0 hR0.le
  have h4 : (k : Int) / srcRows < srcCols := Int.ediv_lt_of_lt_mul hR0 hkP
  have h5 : srcCols * ((k : Int) % srcRows) ≤ srcCols * (srcRows - 1) :=
    mul_le_mul_of_nonneg_left (by omega) (by omega)
  have h6 : (0 : Int) ≤ srcCols * ((k : Int) % srcRows) := mul_nonneg (by omega) h1
  constructor
  · simp only []
    linarith
  · simp only []
    nlinarith

end TransposeClaims

section ShapeClaims

theorem loopN_store_eq_foldl {α : Type} (n : Nat) (g r : Int → Int) (src : Int → α)
    (o : Int → α) :
    loopN n (fun i out => Function.update out (g i) (src (r i))) o =
      ((List.range n).map (fun i : Nat => (g (i : Int), r (i : Int)))).foldl
        (fun d p => Function.update d p.1 (src p.2)) o := by
  induction n with
  | zero => rfl
  | succ n ih => rw [loopN_succ, ih, List.range_succ, List.map_append, List.foldl_append]; rfl

/-- C15: the generic `Transpose` is a correct row-major transpose for every shape with
`srcRows, srcCols ≥ 1`: `dst[srcRows * j + i] = src[srcCols * i + j]` for `i < srcRows` and
`j < srcCols`; the indices stored to are `0, 1, ..., srcRows * srcCols - 1`, each once; every
index read is below `srcRows * srcCols`; and no other cell of `dst` changes. -/
theorem C15_transpose_any_shape {K : Type} (srcMat dstMat : Int → K) (srcRows srcCols : Int)
    (hR : 1 ≤ srcRows) (hC : 1 ≤ srcCols) :
    (∀ i j : Int, 0 ≤ i → i < srcRows → 0 ≤ j → j < srcCols →
      Flat.Transpose srcMat dstMat srcRows srcCols (srcRows * j + i)
        = srcMat (srcCols * i + j)) ∧
    Flat.Transpose srcMat dstMat srcRows srcCols =
      (Flat.Transpose.accesses srcRows srcCols).foldl
        (fun d p => Function.update d p.1 (srcMat p.2)) dstMat ∧
    (Flat.Transpose.accesses srcRows srcCols).map Prod.fst =
      (List.range (srcRows * srcCols).toNat).map (fun n : Nat => (n : Int)) ∧
    (∀ p ∈ Flat.Transpose.accesses srcRows srcCols, 0 ≤ p.2 ∧ p.2 < srcRows * srcCols) ∧
    (∀ n : Int, n < 0 ∨ srcRows * srcCols ≤ n →
      Flat.Transpose srcMat dstMat srcRows srcCols n = dstMat n) := by
  refine ⟨fun i j hi0 hi hj0 hj => Transpose_apply srcMat dstMat srcRows srcCols i j hi0 hi hj0 hj,
    ?_, ?_, fun p hp => Transpose_reads_in_range srcRows srcCols hR hC p hp,
    fun n hn => Transpose_outside srcMat dstMat srcRows srcCols n hn⟩
  · rw [Transpose_accesses_eq]
    exact loopN_store_eq_foldl (srcRows * srcCols).toNat (fun i => i)
      (fun i => srcCols * Int.tmod i srcRows + Int.tdiv i srcRows) srcMat dstMat
  · rw [Transpose_accesses_eq, List.map_map]
    rfl

/-- C15 at a 2x3 source: the cell of row 2 and column 1 of the 3x2 result is the cell of row 1
and column 2 of the source. -/
theorem C15_transpose_any_shape_witness :
    ((1 : Int) ≤ 2 ∧ (1 : Int) ≤ 3) ∧
    Flat.Transpose (fun i => (i : ℚ)) (fun _ => (99 : ℚ)) 2 3 (2 * 2 + 1) =
      (fun i : Int => (i : ℚ)) (3 * 1 + 2) :=
  ⟨⟨by decide, by decide⟩,
   (C15_transpose_any_shape (fun i => (i : ℚ)) (fun _ => (99 : ℚ)) 2 3 (by decide)
    (by decide)).1 1 2 (by decide) (by decide) (by decide) (by decide)⟩

variable {K : Type} [LinearOrderedField K]

/-- C17: for `row, col` in `0..3`, `Cut(M, row, col)` of a 4x4 matrix is the 3x3 submatrix with
that row and column removed, in the original order; its loop stores to exactly the 9 cells
`0..8` (the running index ends at 9, cells outside `0..8` are untouched).  The same holds
for `Cut` from 3x3 to 2x2 with `row, col` in `0..2` and 4 cells. -/
theorem C17_cut_removes_row_and_column (M : mat4 K) (N : mat3 K) (row col row3 col3 : Int)
    (buf : Int → K) (hrow : 0 ≤ row ∧ row < 4) (hcol : 0 ≤ col ∧ col < 4)
    (hrow3 : 0 ≤ row3 ∧ row3 < 3) (hcol3 : 0 ≤ col3 ∧ col3 < 3) :
    ((∀ i j : Int, 0 ≤ i ∧ i < 3 → 0 ≤ j ∧ j < 3 →
        (mat4.Cut M row col).asArray (mat3.index i j) =
          M.asArray (mat4.index (i + if row ≤ i then 1 else 0)
            (j + if col ≤ j then 1 else 0))) ∧
      mat4.Cut M row col = mat3.ofArray (mat4.Cut.loop M row col mat3.default.asArray).1 ∧
      (mat4.Cut.loop M row col buf).2 = 9 ∧
      (∀ n : Int, n < 0 ∨ 9 ≤ n → (mat4.Cut.loop M row col buf).1 n = buf n)) ∧
    ((∀ i j : Int, 0 ≤ i ∧ i < 2 → 0 ≤ j ∧ j < 2 →
        (mat3.Cut N row3 col3).asArray (mat2.index i j) =
          N.asArray (mat3.index (i + if row3 ≤ i then 1 else 0)
            (j + if col3 ≤ j then 1 else 0))) ∧
      mat3.Cut N row3 col3 = mat2.ofArray (mat3.Cut.loop N row3 col3 mat2.default.asArray).1 ∧
      (mat3.Cut.loop N row3 col3 buf).2 = 4 ∧
      (∀ n : Int, n < 0 ∨ 4 ≤ n → (mat3.Cut.loop N row3 col3 buf).1 n = buf n)) :=
  ⟨⟨fun i j hi hj => mat4_Cut_entry M row col i j hrow hcol hi hj, rfl,
    mat4_Cut_loop_index M row col buf hrow hcol,
    fun n hn => mat4_Cut_loop_outside M row col buf hrow hcol n hn⟩,
   ⟨fun i j hi hj => mat3_Cut_entry N row3 col3 i j hrow3 hcol3 hi hj, rfl,
    mat3_Cut_loop_index N row3 col3 buf hrow3 hcol3,
    fun n hn => mat3_Cut_loop_outside N row3 col3 buf hrow3 hcol3 n hn⟩⟩

/-- C17 at a 4x4 matrix with row 1 and column 2 removed and a 3x3 matrix with row 0 and
column 1 removed. -/
theorem C17_cut_removes_row_and_column_witness :
    (((0 : Int) ≤ 1 ∧ (1 : Int) < 4) ∧ ((0 : Int) ≤ 2 ∧ (2 : Int) < 4) ∧
      ((0 : Int) ≤ 0 ∧ (0 : Int) < 3) ∧ ((0 : Int) ≤ 1 ∧ (1 : Int) < 3)) ∧
    (mat4.Cut.loop (⟨1, 2, 3, 4, 5, 6, 7, 8, 9, 10, 11, 12, 13, 14, 15, 16⟩ : mat4 ℚ) 1 2
      (fun _ => 0)).2 = 9 ∧
    (mat3.Cut.loop (⟨1, 2, 3, 4, 5, 6, 7, 8, 9⟩ : mat3 ℚ) 0 1 (fun _ => 0)).2 = 4 :=
  have h := C17_cut_removes_row_and_column
    (⟨1, 2, 3, 4, 5, 6, 7, 8, 9, 10, 11, 12, 13, 14, 15, 16⟩ : mat4 ℚ)
    (⟨1, 2, 3, 4, 5, 6, 7, 8, 9⟩ : mat3 ℚ) 1 2 0 1 (fun _ => 0)
    ⟨by decide, by decide⟩ ⟨by decide, by decide⟩ ⟨by decide, by decide⟩
    ⟨by decide, by decide⟩
  ⟨⟨⟨by decide, by decide⟩, ⟨by decide, by decide⟩, ⟨by decide, by decide⟩,
    ⟨by decide, by decide⟩⟩, h.1.2.2.1, h.2.2.2.1⟩

end ShapeClaims

section CofactorClaims

/-- Two nested loops of stores to the cells `c * j + i` (outer index `i`, inner index `j`) leave
`v i j` in cell `c * j + i` when the outer index stays below `c`. -/
theorem loopN_cols_at {α : Type} (n m : Nat) (c : Int) (v : Int → Int → α) (o : Int → α)
    (i0 j0 : Nat) (hi0 : i0 < n) (hj0 : j0 < m) (hn : (n : Int) ≤ c) :
    loopN n (fun i out => loopN m (fun j out => Function.update out (c * j + i) (v i j)) out)
      o (c * j0 + i0) = v i0 j0 := by
  induction n with
  | zero => exact absurd hi0 (Nat.not_lt_zero _)
  | succ n ih =>
    rw [loopN_succ]
    have hc : (n : Int) < c := by push_cast at hn; omega
    have hn0 : (0 : Int) ≤ n := by exact_mod_cast Nat.zero_le n
    rcases Nat.lt_succ_iff_lt_or_eq.1 hi0 with hlt | heq
    · rw [loopN_store_of_ne m (fun j => c * j + (n : Int)) (fun j => v n j) _ (c * j0 + i0)]
      · exact ih hlt (by omega)
      · intro j _ heq
        have heq2 : c * (j : Int) + n = c * j0 + i0 := heq
        have h1 : (i0 : Int) < n := by exact_mod_cast hlt
        have h2 : (0 : Int) ≤ i0 := by exact_mod_cast Nat.zero_le i0
        rcases lt_or_le (j : Int) (j0 : Int) with hjj | hjj
        · have h3 : c * ((j : Int) + 1) ≤ c * j0 := mul_le_mul_of_nonneg_left (by omega) (by omega)
          linarith
        · have h3 : c * (j0 : Int) ≤ c * j := mul_le_mul_of_nonneg_left hjj (by omega)
          linarith
    · subst heq
      exact loopN_store_at m (fun j => c * j + (i0 : Int)) (fun j => v i0 j) _ j0 hj0
        (fun j hj _ heq => by
          have heq2 : c * (j : Int) + i0 = c * j0 + i0 := heq
          have h3 : c * (j : Int) = c * j0 := by linarith
          have h4 : (j : Int) = j0 := mul_left_cancel₀ (by omega) h3
          exact absurd (by exact_mod_cast h4) (Nat.ne_of_gt hj))

variable {K : Type} [LinearOrderedField K]

/-- The generic `Cofactor` as two nested loops of stores. -/
theorem Cofactor_eq_loopN (out minor : Int → K) (rows cols : Int) :
    Flat.Cofactor out minor rows cols =
      loopN rows.toNat (fun i out => loopN cols.toNat (fun j out =>
        Function.update out (cols * j + i)
          ((fun i j => minor (cols * j + i) * (-1) ^ (i + j)) i j)) out) out :=
  rfl

/-- On a square buffer the generic `Cofactor` is the elementwise checkerboard sign. -/
theorem Cofactor_square_apply (out minor : Int → K) (n r c : Int)
    (hr : 0 ≤ r ∧ r < n) (hc : 0 ≤ c ∧ c < n) :
    Flat.Cofactor out minor n n (n * r + c) = minor (n * r + c) * (-1) ^ (r + c) := by
  have h := loopN_cols_at n.toNat n.toNat n
    (fun i j => minor (n * j + i) * (-1 : K) ^ (i + j)) out c.toNat r.toNat
    (by omega) (by omega) (by omega)
  rw [Int.toNat_of_nonneg hr.1, Int.toNat_of_nonneg hc.1] at h
  rw [Cofactor_eq_loopN, h]
  simp only [add_comm c r]

/-- C16 fails on the code for a non-square shape.  With `rows = 1` and `cols = 2` the generic
`Cofactor` stores to the indices 0 and 2: index 1 keeps its old value although the claim gives
it `minor[1] * (-1)`, and index 2 lies beyond `rows * cols = 2`.  With `rows = 3` and
`cols = 2` index 2 is stored to twice and ends with the sign `+`, index 4 ends with the sign
`-`, and index 5 is never stored to. -/
theorem C16_cofactor_nonsquare :
    Flat.Cofactor.accesses 1 2 = [0, 2] ∧
    Flat.Cofactor (fun _ => (99 : ℚ)) (fun i => (i : ℚ) + 1) 1 2 1 = 99 ∧
    Flat.Cofactor (fun _ => (99 : ℚ)) (fun i => (i : ℚ) + 1) 1 2 2 = -3 ∧
    Flat.Cofactor.accesses 3 2 = [0, 2, 1, 3, 2, 4] ∧
    Flat.Cofactor (fun _ => (99 : ℚ)) (fun i => (i : ℚ) + 1) 3 2 2 = 3 ∧
    Flat.Cofactor (fun _ => (99 : ℚ)) (fun i => (i : ℚ) + 1) 3 2 4 = -5 ∧
    Flat.Cofactor (fun _ => (99 : ℚ)) (fun i => (i : ℚ) + 1) 3 2 5 = 99 := by
  refine ⟨rfl, ?_, ?_, rfl, ?_, ?_, ?_⟩ <;>
    norm_num [Flat.Cofactor, forLoop_one, forLoop_two, forLoop_three, Function.update_apply]

end CofactorClaims
